import Mathlib

/-!
Shallow embedding of the 68000/68080 processor core of this repository
(directory `68080_Emu`): machine state, memory and bus accessors, flag and
condition logic, breakpoints, the instruction decoder, the addressing-mode
resolver, the execution handler families and the step controller
(`m68k_execute_cycle`), translated from the C sources.  Machine integers are
modelled as `Nat` (two's-complement reinterpretations go through `Int`), with
explicit reductions modulo 2^8 / 2^16 / 2^32 / 2^64 exactly where the C types
force a truncation.  Each stateful C function becomes a Lean function from the
processor state (and the memory image, passed by the caller on every call,
as in C) to the updated state plus its return value.
-/

namespace M68K

/-- Reduce to an unsigned 8-bit value (`uint8_t` truncation). -/
def u8 (n : Nat) : Nat := n % 256

/-- Reduce to an unsigned 16-bit value (`uint16_t` truncation). -/
def u16 (n : Nat) : Nat := n % 65536

/-- Reduce to an unsigned 32-bit value (`uint32_t` truncation). -/
def u32 (n : Nat) : Nat := n % 4294967296

/-- Reduce to an unsigned 64-bit value (`uint64_t` truncation). -/
def u64 (n : Nat) : Nat := n % 18446744073709551616

/-- Store an `Int` into a `uint32_t`: two's-complement wrap-around. -/
def wrap32 (x : Int) : Nat := (x % 4294967296).toNat

/-- Store an `Int` into a `uint16_t`: two's-complement wrap-around. -/
def wrap16 (x : Int) : Nat := (x % 65536).toNat

/-- Reinterpret the low 8 bits as a signed `int8_t`. -/
def toInt8 (n : Nat) : Int :=
  if n % 256 < 128 then (n % 256 : Nat) else (n % 256 : Nat) - 256

/-- Reinterpret the low 16 bits as a signed `int16_t`. -/
def toInt16 (n : Nat) : Int :=
  if n % 65536 < 32768 then (n % 65536 : Nat) else (n % 65536 : Nat) - 65536

/-- Reinterpret the low 32 bits as a signed `int32_t`. -/
def toInt32 (n : Nat) : Int :=
  if n % 4294967296 < 2147483648 then (n % 4294967296 : Nat)
  else (n % 4294967296 : Nat) - 4294967296

/-- Pointwise update of a register file / byte map. -/
def updN (f : Nat → Nat) (i v : Nat) : Nat → Nat :=
  fun j => if j = i then v else f j

/-- A memory image: the byte buffer owned by the caller (`uint8_t*`).
Addresses map to byte values; the separate `mem_size` argument of every
operation bounds the valid range, as in C. -/
def Mem : Type := Nat → Nat

/-- Read one byte of the buffer, normalised to `uint8_t` range. -/
def byteAt (memory : Mem) (addr : Nat) : Nat := u8 (memory addr)

/-- Status-register flag masks (m68k_cpu.h). -/
def SR_CARRY : Nat := 0x0001
def SR_OVERFLOW : Nat := 0x0002
def SR_ZERO : Nat := 0x0004
def SR_NEGATIVE : Nat := 0x0008
def SR_EXTEND : Nat := 0x0010
def SR_SUPERVISOR : Nat := 0x2000
def SR_TRACE : Nat := 0x8000

/-- Operand sizes (m68k_cpu.h `OperandSize`). -/
inductive OperandSize where
  | byte | word | long | quad | vector
  deriving DecidableEq, Repr

/-- Numeric value of an `OperandSize` (the C enum values 1/2/4/8/64). -/
def OperandSize.val : OperandSize → Nat
  | .byte => 1
  | .word => 2
  | .long => 4
  | .quad => 8
  | .vector => 64

/-- The C cast `(OperandSize)n` used by CMPM (`1 << sizebits`). -/
def sizeOfVal (n : Nat) : OperandSize :=
  if n = 1 then .byte else if n = 2 then .word else if n = 4 then .long
  else if n = 8 then .quad else .vector

/-- One debugger breakpoint (m68k_cpu.h `M68K_Breakpoint`; the unused
`condition` text field is omitted). -/
structure Breakpoint where
  address : Nat
  enabled : Bool
  hit_count : Nat
  deriving DecidableEq, Repr

/-- The processor state (m68k_cpu.h `M68K_CPU`).  Register files and byte
arrays are total maps from `Nat`; C's fixed index ranges are enforced by the
`&&& 7`-style masks at every call site, exactly as in the source.  The eight
double-precision FPU registers are carried as raw 64-bit patterns; the
floating-point arithmetic on them is outside this integer embedding (no
decoded instruction reaches it). -/
structure CPU where
  d : Nat → Nat
  a : Nat → Nat
  pc : Nat
  sr : Nat
  usp : Nat
  ssp : Nat
  apollo_v : Nat → Nat
  apollo_vr : Nat → Nat
  apollo_fp : Nat → Nat
  apollo_fpcr : Nat
  apollo_fpsr : Nat
  apollo_fpiar : Nat
  apollo_mode : Bool
  halted : Bool
  trace_mode : Bool
  cycle_count : Nat
  instruction_count : Nat
  bus_data : Nat → Nat
  bus_address : Nat
  bus_active : Bool
  bus_transfers : Nat
  icache : Nat → Nat
  dcache : Nat → Nat
  icache_valid : Nat → Bool
  dcache_valid : Nat → Bool
  cache_hits : Nat
  cache_misses : Nat
  breakpoints : List Breakpoint
  breakpoint_hit : Bool
  breakpoint_addr : Nat
  vbr : Nat
  branch_count : Nat
  branch_taken : Nat
  load_count : Nat
  store_count : Nat

/-- `m68k_init` (m68k_cpu_extended.c): `memset` the whole structure to zero,
then set `sr = SR_SUPERVISOR`, `ssp = 0x10000`, `apollo_mode = true` and an
empty breakpoint set (the C code allocates capacity for 32 entries with
`num_breakpoints = 0`).  The C function overwrites its argument wholesale, so
it is a constant state here. -/
def m68k_init : CPU where
  d := fun _ => 0
  a := fun _ => 0
  pc := 0
  sr := SR_SUPERVISOR
  usp := 0
  ssp := 0x10000
  apollo_v := fun _ => 0
  apollo_vr := fun _ => 0
  apollo_fp := fun _ => 0
  apollo_fpcr := 0
  apollo_fpsr := 0
  apollo_fpiar := 0
  apollo_mode := true
  halted := false
  trace_mode := false
  cycle_count := 0
  instruction_count := 0
  bus_data := fun _ => 0
  bus_address := 0
  bus_active := false
  bus_transfers := 0
  icache := fun _ => 0
  dcache := fun _ => 0
  icache_valid := fun _ => false
  dcache_valid := fun _ => false
  cache_hits := 0
  cache_misses := 0
  breakpoints := []
  breakpoint_hit := false
  breakpoint_addr := 0
  vbr := 0
  branch_count := 0
  branch_taken := 0
  load_count := 0
  store_count := 0

/-- `m68k_reset` (m68k_cpu_extended.c): save the cycle and instruction
counters, the `apollo_mode` flag and the breakpoint set, run `m68k_init`,
then write the saved values back. -/
def m68k_reset (cpu : CPU) : CPU :=
  let cycles := cpu.cycle_count
  let instrs := cpu.instruction_count
  let apollo := cpu.apollo_mode
  let bp := cpu.breakpoints
  let t := m68k_init
  { t with cycle_count := cycles, instruction_count := instrs,
           apollo_mode := apollo, breakpoints := bp }

/-- `m68k_fetch_word` (m68k_cpu.c): bounds-check the program counter (an
out-of-range fetch halts the processor and returns 0 without advancing PC),
record the simulated 128-byte bus burst, read a big-endian word, advance PC
by 2 and charge one cycle. -/
def m68k_fetch_word (cpu : CPU) (memory : Mem) (mem_size : Nat) : CPU × Nat :=
  if cpu.pc ≥ mem_size - 1 then
    ({ cpu with halted := true }, 0)
  else
    let busAddr := cpu.pc - cpu.pc % 128
    let word := 256 * byteAt memory cpu.pc + byteAt memory (cpu.pc + 1)
    ({ cpu with bus_address := busAddr, bus_active := true,
                bus_data := fun i => byteAt memory (busAddr + i),
                pc := u32 (cpu.pc + 2),
                cycle_count := cpu.cycle_count + 1 }, word)

/-- `m68k_fetch_long` (m68k_cpu.c): two word fetches, high word first. -/
def m68k_fetch_long (cpu : CPU) (memory : Mem) (mem_size : Nat) : CPU × Nat :=
  let r1 := m68k_fetch_word cpu memory mem_size
  let r2 := m68k_fetch_word r1.1 memory mem_size
  (r2.1, 65536 * r1.2 + r2.2)

/-- `m68k_read_memory` (m68k_cpu.c): an out-of-bounds address is tolerated
(return the default value 0 with no state change at all); otherwise record
the bus burst, count the load, read big-endian bytes of the requested size
(partial words/longs at the end of memory read as 0) and charge one cycle. -/
def m68k_read_memory (cpu : CPU) (memory : Mem) (mem_size : Nat)
    (addr : Nat) (size : OperandSize) : CPU × Nat :=
  if addr ≥ mem_size then (cpu, 0)
  else
    let busAddr := addr - addr % 128
    let cpu1 := { cpu with bus_address := busAddr, bus_active := true,
                           bus_data := fun i => byteAt memory (busAddr + i),
                           load_count := cpu.load_count + 1 }
    let value :=
      match size with
      | .byte => byteAt memory addr
      | .word =>
          if addr + 1 < mem_size then
            256 * byteAt memory addr + byteAt memory (addr + 1)
          else 0
      | .long =>
          if addr + 3 < mem_size then
            16777216 * byteAt memory addr + 65536 * byteAt memory (addr + 1) +
              256 * byteAt memory (addr + 2) + byteAt memory (addr + 3)
          else 0
      | _ => 0
    ({ cpu1 with cycle_count := cpu1.cycle_count + 1 }, value)

/-- `m68k_write_memory` (m68k_cpu.c): an out-of-bounds address is tolerated
(no byte changes, no state change at all); otherwise record the bus address,
count the store, write big-endian bytes of the requested size (partial
words/longs at the end of memory write nothing) and charge one cycle. -/
def m68k_write_memory (cpu : CPU) (memory : Mem) (mem_size : Nat)
    (addr : Nat) (value : Nat) (size : OperandSize) : CPU × Mem :=
  if addr ≥ mem_size then (cpu, memory)
  else
    let cpu1 := { cpu with bus_address := addr - addr % 128, bus_active := true,
                           store_count := cpu.store_count + 1 }
    let memory1 :=
      match size with
      | .byte => updN memory addr (value % 256)
      | .word =>
          if addr + 1 < mem_size then
            updN (updN memory addr (value / 256 % 256)) (addr + 1) (value % 256)
          else memory
      | .long =>
          if addr + 3 < mem_size then
            updN (updN (updN (updN memory addr (value / 16777216 % 256))
              (addr + 1) (value / 65536 % 256)) (addr + 2) (value / 256 % 256))
              (addr + 3) (value % 256)
          else memory
      | _ => memory
    ({ cpu1 with cycle_count := cpu1.cycle_count + 1 }, memory1)

/-- `m68k_get_flag` (m68k_cpu_extended.c). -/
def m68k_get_flag (cpu : CPU) (flag : Nat) : Bool :=
  decide (cpu.sr &&& flag ≠ 0)

/-- `m68k_set_flag` (m68k_cpu_extended.c): `sr |= flag` / `sr &= ~flag`
(the complement taken at the 16-bit width of `sr`). -/
def m68k_set_flag (cpu : CPU) (flag : Nat) (value : Bool) : CPU :=
  if value then { cpu with sr := cpu.sr ||| flag }
  else { cpu with sr := cpu.sr &&& (65535 ^^^ flag) }

/-- `m68k_set_flags` (m68k_cpu_extended.c): size-aware Z/N update from the
truncated result (the `default` case of the C switch leaves both local
booleans false, so quad/vector sizes clear both flags). -/
def m68k_set_flags (cpu : CPU) (result : Nat) (size : OperandSize) : CPU :=
  let zn : Bool × Bool :=
    match size with
    | .byte => (decide (result % 256 = 0), decide (result % 256 ≥ 128))
    | .word => (decide (result % 65536 = 0), decide (result % 65536 ≥ 32768))
    | .long => (decide (result = 0), decide (result % 4294967296 ≥ 2147483648))
    | _ => (false, false)
  m68k_set_flag (m68k_set_flag cpu SR_ZERO zn.1) SR_NEGATIVE zn.2

/-- Modelled from the spec: `m68k_set_flags_add` is declared in m68k_cpu.h and
called by the ADD-family handlers, but no definition of it exists among the
repository's source files.  Per spec §4.1, the add-direction flag routine is a
size-aware update that sets Z/N from the truncated result and computes
unsigned carry and signed overflow with the add-specific formulas; carry is
mirrored into extend as on the 68000.  Sizes outside byte/word/long follow the
same `default`-no-op convention as `m68k_set_flags`. -/
def m68k_set_flags_add (cpu : CPU) (src dst result : Nat)
    (size : OperandSize) : CPU :=
  let bits : Option Nat :=
    match size with
    | .byte => some 8
    | .word => some 16
    | .long => some 32
    | _ => none
  match bits with
  | none => cpu
  | some w =>
    let m := 2 ^ w
    let msb := fun (x : Nat) => decide (x % m ≥ m / 2)
    let carry := decide (src % m + dst % m ≥ m)
    let overflow := (msb src == msb dst) && (msb result != msb dst)
    let c1 := m68k_set_flags cpu result size
    let c2 := m68k_set_flag c1 SR_CARRY carry
    let c3 := m68k_set_flag c2 SR_EXTEND carry
    m68k_set_flag c3 SR_OVERFLOW overflow

/-- Modelled from the spec: `m68k_set_flags_sub` is declared in m68k_cpu.h and
called by the SUB/CMP-family handlers, but no definition of it exists among
the repository's source files.  Per spec §4.1, the subtract-direction flag
routine sets Z/N from the truncated result and computes unsigned borrow and
signed overflow with the subtract-specific formulas; borrow is mirrored into
extend as on the 68000. -/
def m68k_set_flags_sub (cpu : CPU) (src dst result : Nat)
    (size : OperandSize) : CPU :=
  let bits : Option Nat :=
    match size with
    | .byte => some 8
    | .word => some 16
    | .long => some 32
    | _ => none
  match bits with
  | none => cpu
  | some w =>
    let m := 2 ^ w
    let msb := fun (x : Nat) => decide (x % m ≥ m / 2)
    let borrow := decide (dst % m < src % m)
    let overflow := (msb src != msb dst) && (msb result != msb dst)
    let c1 := m68k_set_flags cpu result size
    let c2 := m68k_set_flag c1 SR_CARRY borrow
    let c3 := m68k_set_flag c2 SR_EXTEND borrow
    m68k_set_flag c3 SR_OVERFLOW overflow

/-- `m68k_test_condition` (m68k_cpu_extended.c): the 16-way condition test
over the C, V, Z, N flags. -/
def m68k_test_condition (cpu : CPU) (condition : Nat) : Bool :=
  let c := m68k_get_flag cpu SR_CARRY
  let v := m68k_get_flag cpu SR_OVERFLOW
  let z := m68k_get_flag cpu SR_ZERO
  let n := m68k_get_flag cpu SR_NEGATIVE
  match condition with
  | 0x0 => true
  | 0x1 => false
  | 0x2 => !c && !z
  | 0x3 => c || z
  | 0x4 => !c
  | 0x5 => c
  | 0x6 => !z
  | 0x7 => z
  | 0x8 => !v
  | 0x9 => v
  | 0xA => !n
  | 0xB => n
  | 0xC => (n && v) || (!n && !v)
  | 0xD => (n && !v) || (!n && v)
  | 0xE => !z && ((n && v) || (!n && !v))
  | 0xF => z || (n && !v) || (!n && v)
  | _ => false

/-- The scan loop of `m68k_check_breakpoint`: find the first enabled
breakpoint at the address and return the list with its hit counter bumped,
or `none` when no enabled breakpoint matches. -/
def bpScan : List Breakpoint → Nat → Option (List Breakpoint)
  | [], _ => none
  | b :: rest, addr =>
      if b.enabled && b.address == addr then
        some ({ b with hit_count := b.hit_count + 1 } :: rest)
      else
        (bpScan rest addr).map (b :: ·)

/-- `m68k_check_breakpoint` (m68k_cpu_extended.c): on the first enabled match
increment that breakpoint's hit counter, record the hit, and return true. -/
def m68k_check_breakpoint (cpu : CPU) (address : Nat) : CPU × Bool :=
  match bpScan cpu.breakpoints address with
  | some bps =>
      ({ cpu with breakpoints := bps, breakpoint_hit := true,
                  breakpoint_addr := address }, true)
  | none => (cpu, false)

/-- Ordinal values of the C `OpCode` enum (m68k_cpu.h).  The step controller
dispatches on enum-order ranges, so the ordinals are semantically load-bearing
and are reproduced exactly. -/
def OP_NOP : Nat := 0
def OP_MOVE : Nat := 1
def OP_MOVEA : Nat := 2
def OP_MOVEM : Nat := 3
def OP_MOVEP : Nat := 4
def OP_MOVEQ : Nat := 5
def OP_EXG : Nat := 6
def OP_SWAP : Nat := 7
def OP_LEA : Nat := 8
def OP_PEA : Nat := 9
def OP_LINK : Nat := 10
def OP_UNLK : Nat := 11
def OP_ADD : Nat := 12
def OP_ADDA : Nat := 13
def OP_ADDI : Nat := 14
def OP_ADDQ : Nat := 15
def OP_ADDX : Nat := 16
def OP_SUB : Nat := 17
def OP_SUBA : Nat := 18
def OP_SUBI : Nat := 19
def OP_SUBQ : Nat := 20
def OP_SUBX : Nat := 21
def OP_MULS : Nat := 22
def OP_MULU : Nat := 23
def OP_DIVS : Nat := 24
def OP_DIVU : Nat := 25
def OP_NEG : Nat := 26
def OP_NEGX : Nat := 27
def OP_CLR : Nat := 28
def OP_EXT : Nat := 29
def OP_AND : Nat := 30
def OP_ANDI : Nat := 31
def OP_OR : Nat := 32
def OP_ORI : Nat := 33
def OP_EOR : Nat := 34
def OP_EORI : Nat := 35
def OP_NOT : Nat := 36
def OP_ASL : Nat := 37
def OP_ASR : Nat := 38
def OP_LSL : Nat := 39
def OP_LSR : Nat := 40
def OP_ROL : Nat := 41
def OP_ROR : Nat := 42
def OP_ROXL : Nat := 43
def OP_ROXR : Nat := 44
def OP_BCHG : Nat := 45
def OP_BCLR : Nat := 46
def OP_BSET : Nat := 47
def OP_BTST : Nat := 48
def OP_CMP : Nat := 49
def OP_CMPA : Nat := 50
def OP_CMPI : Nat := 51
def OP_CMPM : Nat := 52
def OP_TST : Nat := 53
def OP_BRA : Nat := 54
def OP_BSR : Nat := 55
def OP_BCC : Nat := 56
def OP_BCS : Nat := 57
def OP_BEQ : Nat := 58
def OP_BNE : Nat := 59
def OP_BGE : Nat := 60
def OP_BGT : Nat := 61
def OP_BHI : Nat := 62
def OP_BLE : Nat := 63
def OP_BLS : Nat := 64
def OP_BLT : Nat := 65
def OP_BMI : Nat := 66
def OP_BPL : Nat := 67
def OP_BVC : Nat := 68
def OP_BVS : Nat := 69
def OP_SCC : Nat := 70
def OP_SCS : Nat := 71
def OP_SEQ : Nat := 72
def OP_SNE : Nat := 73
def OP_SGE : Nat := 74
def OP_SGT : Nat := 75
def OP_SHI : Nat := 76
def OP_SLE : Nat := 77
def OP_SLS : Nat := 78
def OP_SLT : Nat := 79
def OP_SMI : Nat := 80
def OP_SPL : Nat := 81
def OP_SVC : Nat := 82
def OP_SVS : Nat := 83
def OP_ST : Nat := 84
def OP_SF : Nat := 85
def OP_JMP : Nat := 86
def OP_JSR : Nat := 87
def OP_RTS : Nat := 88
def OP_RTR : Nat := 89
def OP_RTE : Nat := 90
def OP_DBCC : Nat := 91
def OP_DBCS : Nat := 92
def OP_DBEQ : Nat := 93
def OP_DBNE : Nat := 94
def OP_DBGE : Nat := 95
def OP_DBGT : Nat := 96
def OP_DBHI : Nat := 97
def OP_DBLE : Nat := 98
def OP_DBLS : Nat := 99
def OP_DBLT : Nat := 100
def OP_DBMI : Nat := 101
def OP_DBPL : Nat := 102
def OP_DBVC : Nat := 103
def OP_DBVS : Nat := 104
def OP_DBT : Nat := 105
def OP_DBF : Nat := 106
def OP_TRAP : Nat := 107
def OP_TRAPV : Nat := 108
def OP_CHK : Nat := 109
def OP_RESET : Nat := 110
def OP_STOP : Nat := 111
def OP_ANDI_SR : Nat := 112
def OP_EORI_SR : Nat := 113
def OP_ORI_SR : Nat := 114
def OP_ANDI_CCR : Nat := 115
def OP_EORI_CCR : Nat := 116
def OP_ORI_CCR : Nat := 117
def OP_MOVE_SR : Nat := 118
def OP_MOVE_CCR : Nat := 119
def OP_MOVE_USP : Nat := 120
def OP_TAS : Nat := 121
def OP_NBCD : Nat := 122
def OP_ABCD : Nat := 123
def OP_SBCD : Nat := 124
def OP_MOVEC : Nat := 125
def OP_MOVES : Nat := 126
def OP_RTD : Nat := 127
def OP_BKPT : Nat := 128
def OP_BFCHG : Nat := 129
def OP_BFCLR : Nat := 130
def OP_BFEXTS : Nat := 131
def OP_BFEXTU : Nat := 132
def OP_BFFFO : Nat := 133
def OP_BFINS : Nat := 134
def OP_BFSET : Nat := 135
def OP_BFTST : Nat := 136
def OP_CALLM : Nat := 137
def OP_CAS : Nat := 138
def OP_CAS2 : Nat := 139
def OP_CMP2 : Nat := 140
def OP_DIVSL : Nat := 141
def OP_DIVUL : Nat := 142
def OP_EXTB : Nat := 143
def OP_PACK : Nat := 144
def OP_UNPK : Nat := 145
def OP_VADD : Nat := 146
def OP_VSUB : Nat := 147
def OP_VMUL : Nat := 148
def OP_VDIV : Nat := 149
def OP_VAND : Nat := 150
def OP_VOR : Nat := 151
def OP_VXOR : Nat := 152
def OP_VNOT : Nat := 153
def OP_VLOAD : Nat := 154
def OP_VSTORE : Nat := 155
def OP_VMOVE : Nat := 156
def OP_VDOT : Nat := 157
def OP_VCROSS : Nat := 158
def OP_VABS : Nat := 159
def OP_VSQRT : Nat := 160
def OP_VMIN : Nat := 161
def OP_VMAX : Nat := 162
def OP_VSUM : Nat := 163
def OP_ADD64 : Nat := 164
def OP_SUB64 : Nat := 165
def OP_MUL64 : Nat := 166
def OP_DIV64 : Nat := 167
def OP_MOVE64 : Nat := 168
def OP_CMP64 : Nat := 169
def OP_FMOVE : Nat := 170
def OP_FADD : Nat := 171
def OP_FSUB : Nat := 172
def OP_FMUL : Nat := 173
def OP_FDIV : Nat := 174
def OP_FSQRT : Nat := 175
def OP_FABS : Nat := 176
def OP_FNEG : Nat := 177
def OP_FCMP : Nat := 178
def OP_FTST : Nat := 179
def OP_FSIN : Nat := 180
def OP_FCOS : Nat := 181
def OP_FTAN : Nat := 182
def OP_ILLEGAL : Nat := 183

/-- `m68k_decode_instruction` (m68k_decode.c): the pure mapping from a 16-bit
instruction word to an operation tag, organised by the top 4 bits and, inside
each line, by the source's ordered mask/pattern tests (first match wins).
Unmatched words decode to `OP_ILLEGAL`.  The `params` output array of the C
function is consumed only by the disassembler, which is outside this
embedding; the executors receive the raw opcode word, as in C. -/
def m68k_decode_instruction (opcode : Nat) : Nat :=
  let hi4 := (opcode >>> 12) &&& 0xF
  if hi4 = 0x0 then
    if opcode &&& 0xF1C0 = 0x0100 then
      let ty := (opcode >>> 6) &&& 0x3
      if ty = 0 then OP_BTST else if ty = 1 then OP_BCHG
      else if ty = 2 then OP_BCLR else OP_BSET
    else if opcode &&& 0xFFC0 = 0x0800 then OP_BTST
    else if opcode &&& 0xFF00 = 0x0000 then
      let operation := (opcode >>> 9) &&& 0x7
      if operation = 0 then OP_ORI else if operation = 1 then OP_ANDI
      else if operation = 2 then OP_SUBI else if operation = 3 then OP_ADDI
      else if operation = 5 then OP_EORI else if operation = 6 then OP_CMPI
      else OP_ILLEGAL
    else if opcode &&& 0xF138 = 0x0108 then OP_MOVEP
    else OP_ILLEGAL
  else if hi4 = 0x1 ∨ hi4 = 0x2 ∨ hi4 = 0x3 then
    if opcode &&& 0x01C0 = 0x0040 then OP_MOVEA else OP_MOVE
  else if hi4 = 0x4 then
    if opcode &&& 0xFFC0 = 0x4E40 then OP_TRAP
    else if opcode = 0x4E70 then OP_RESET
    else if opcode = 0x4E71 then OP_NOP
    else if opcode = 0x4E72 then OP_STOP
    else if opcode = 0x4E73 then OP_RTE
    else if opcode = 0x4E75 then OP_RTS
    else if opcode = 0x4E76 then OP_TRAPV
    else if opcode = 0x4E77 then OP_RTR
    else if opcode &&& 0xFFF0 = 0x4E50 then OP_LINK
    else if opcode &&& 0xFFF8 = 0x4E58 then OP_UNLK
    else if opcode &&& 0xFFC0 = 0x4E80 then OP_JSR
    else if opcode &&& 0xFFC0 = 0x4EC0 then OP_JMP
    else if opcode &&& 0xFF00 = 0x4000 then
      let ty := (opcode >>> 9) &&& 0x7
      if ty = 0 then OP_NEGX else if ty = 2 then OP_CLR
      else if ty = 4 then OP_NEG else if ty = 6 then OP_NOT
      else OP_ILLEGAL
    else if opcode &&& 0xFB80 = 0x4880 then OP_EXT
    else if opcode &&& 0xFFC0 = 0x4AC0 then OP_TAS
    else if opcode &&& 0xFF00 = 0x4A00 then OP_TST
    else if opcode &&& 0xFFC0 = 0x4800 then OP_NBCD
    else if opcode &&& 0xFFF8 = 0x4840 then OP_SWAP
    else if opcode &&& 0xFFF8 = 0x4848 then OP_BKPT
    else if opcode &&& 0xFFC0 = 0x4840 then OP_PEA
    else if opcode &&& 0xFB80 = 0x4880 then OP_MOVEM
    else if opcode &&& 0xFFC0 = 0x44C0 then OP_MOVE_CCR
    else if opcode &&& 0xFFC0 = 0x46C0 then OP_MOVE_SR
    else if opcode &&& 0xFF00 = 0x4200 then OP_CLR
    else if opcode &&& 0xF1C0 = 0x41C0 then OP_LEA
    else if opcode &&& 0xF1C0 = 0x4180 then OP_CHK
    else OP_ILLEGAL
  else if hi4 = 0x5 then
    if opcode &&& 0xF0C0 = 0x50C0 then
      if opcode &&& 0x38 = 0x08 then OP_DBCC + ((opcode >>> 8) &&& 0xF)
      else OP_SCC + ((opcode >>> 8) &&& 0xF)
    else
      if (opcode >>> 8) &&& 1 = 1 then OP_SUBQ else OP_ADDQ
  else if hi4 = 0x6 then
    let cond := (opcode >>> 8) &&& 0xF
    if cond = 0x0 then OP_BRA
    else if cond = 0x1 then OP_BSR
    else OP_BCC + (cond - 2)
  else if hi4 = 0x7 then
    if opcode &&& 0x0100 = 0 then OP_MOVEQ else OP_ILLEGAL
  else if hi4 = 0x8 then
    if opcode &&& 0x01F0 = 0x0100 then OP_SBCD
    else if opcode &&& 0x01C0 = 0x01C0 then
      if (opcode >>> 8) &&& 1 = 1 then OP_DIVS else OP_DIVU
    else OP_OR
  else if hi4 = 0x9 then
    if opcode &&& 0xF130 = 0x9100 then OP_SUBX
    else if opcode &&& 0x00C0 = 0x00C0 then OP_SUBA
    else OP_SUB
  else if hi4 = 0xA then OP_ILLEGAL
  else if hi4 = 0xB then
    if opcode &&& 0x0100 = 0x0100 then
      if opcode &&& 0x0038 = 0x0008 then OP_CMPM else OP_EOR
    else
      if opcode &&& 0x00C0 = 0x00C0 then OP_CMPA else OP_CMP
  else if hi4 = 0xC then
    if opcode &&& 0x01F0 = 0x0100 then OP_ABCD
    else if opcode &&& 0xF130 = 0xC100 then OP_EXG
    else if opcode &&& 0x01C0 = 0x01C0 then
      if (opcode >>> 8) &&& 1 = 1 then OP_MULS else OP_MULU
    else OP_AND
  else if hi4 = 0xD then
    if opcode &&& 0xF130 = 0xD100 then OP_ADDX
    else if opcode &&& 0x00C0 = 0x00C0 then OP_ADDA
    else OP_ADD
  else if hi4 = 0xE then
    if opcode &&& 0x0018 = 0x0000 then
      let ty := (opcode >>> 3) &&& 0x3
      let dir := (opcode >>> 8) &&& 0x1
      if ty = 0 then (if dir = 1 then OP_ASR else OP_ASL)
      else if ty = 1 then (if dir = 1 then OP_LSR else OP_LSL)
      else if ty = 2 then (if dir = 1 then OP_ROXR else OP_ROXL)
      else (if dir = 1 then OP_ROR else OP_ROL)
    else OP_ILLEGAL
  else OP_ILLEGAL

/-- `m68k_get_ea_value` (m68k_addressing.c): resolve an addressing mode and
read the operand, with the mode's side effects (post-increment after the
access, pre-decrement before it, extension-word fetches advancing PC). -/
def m68k_get_ea_value (cpu : CPU) (memory : Mem) (mem_size : Nat)
    (mode reg : Nat) (size : OperandSize) : CPU × Nat :=
  if mode = 0 then (cpu, cpu.d reg)
  else if mode = 1 then (cpu, cpu.a reg)
  else if mode = 2 then
    let ea := cpu.a reg
    m68k_read_memory cpu memory mem_size ea size
  else if mode = 3 then
    let ea := cpu.a reg
    let cpu := { cpu with a := updN cpu.a reg (u32 (cpu.a reg + size.val)) }
    m68k_read_memory cpu memory mem_size ea size
  else if mode = 4 then
    let cpu := { cpu with a := updN cpu.a reg (wrap32 ((cpu.a reg : Int) - (size.val : Int))) }
    let ea := cpu.a reg
    m68k_read_memory cpu memory mem_size ea size
  else if mode = 5 then
    let r := m68k_fetch_word cpu memory mem_size
    let ea := wrap32 ((r.1.a reg : Int) + toInt16 r.2)
    m68k_read_memory r.1 memory mem_size ea size
  else if mode = 6 then
    let r := m68k_fetch_word cpu memory mem_size
    let ext := r.2
    let disp := toInt8 (ext &&& 0xFF)
    let idx_reg := (ext >>> 12) &&& 0x7
    let is_addr := (ext >>> 15) &&& 0x1 = 1
    let index0 : Int :=
      if is_addr then toInt32 (r.1.a idx_reg) else toInt32 (r.1.d idx_reg)
    let index : Int := if ext &&& 0x0800 = 0 then toInt16 (wrap32 index0) else index0
    let ea := wrap32 ((r.1.a reg : Int) + disp + index)
    m68k_read_memory r.1 memory mem_size ea size
  else if mode = 7 then
    if reg = 0 then
      let r := m68k_fetch_word cpu memory mem_size
      m68k_read_memory r.1 memory mem_size (wrap32 (toInt16 r.2)) size
    else if reg = 1 then
      let r := m68k_fetch_long cpu memory mem_size
      m68k_read_memory r.1 memory mem_size r.2 size
    else if reg = 2 then
      let pc := cpu.pc
      let r := m68k_fetch_word cpu memory mem_size
      m68k_read_memory r.1 memory mem_size (wrap32 ((pc : Int) + toInt16 r.2)) size
    else if reg = 4 then
      if size = .long then m68k_fetch_long cpu memory mem_size
      else m68k_fetch_word cpu memory mem_size
    else (cpu, 0)
  else (cpu, 0)

/-- `m68k_set_ea_value` (m68k_addressing.c): resolve an addressing mode and
write the operand (register-direct writes are masked to size, preserving the
untouched high bits; post-increment updates the register after the store,
pre-decrement before it). -/
def m68k_set_ea_value (cpu : CPU) (memory : Mem) (mem_size : Nat)
    (mode reg value : Nat) (size : OperandSize) : CPU × Mem :=
  if mode = 0 then
    if size = .byte then
      ({ cpu with d := updN cpu.d reg ((cpu.d reg &&& 0xFFFFFF00) ||| (value &&& 0xFF)) }, memory)
    else if size = .word then
      ({ cpu with d := updN cpu.d reg ((cpu.d reg &&& 0xFFFF0000) ||| (value &&& 0xFFFF)) }, memory)
    else
      ({ cpu with d := updN cpu.d reg value }, memory)
  else if mode = 1 then
    ({ cpu with a := updN cpu.a reg value }, memory)
  else if mode = 2 then
    m68k_write_memory cpu memory mem_size (cpu.a reg) value size
  else if mode = 3 then
    let ea := cpu.a reg
    let w := m68k_write_memory cpu memory mem_size ea value size
    ({ w.1 with a := updN w.1.a reg (u32 (w.1.a reg + size.val)) }, w.2)
  else if mode = 4 then
    let cpu := { cpu with a := updN cpu.a reg (wrap32 ((cpu.a reg : Int) - (size.val : Int))) }
    m68k_write_memory cpu memory mem_size (cpu.a reg) value size
  else if mode = 5 then
    let r := m68k_fetch_word cpu memory mem_size
    let ea := wrap32 ((r.1.a reg : Int) + toInt16 r.2)
    m68k_write_memory r.1 memory mem_size ea value size
  else if mode = 7 then
    if reg = 0 then
      let r := m68k_fetch_word cpu memory mem_size
      m68k_write_memory r.1 memory mem_size (wrap32 (toInt16 r.2)) value size
    else if reg = 1 then
      let r := m68k_fetch_long cpu memory mem_size
      m68k_write_memory r.1 memory mem_size r.2 value size
    else (cpu, memory)
  else (cpu, memory)

/-- `m68k_execute_bcd` (m68k_addressing.c): ABCD/SBCD/NBCD with per-nibble
decimal correction; carry/extend from the high-nibble correction; the zero
flag is only ever cleared (on a non-zero result byte), never set. -/
def m68k_execute_bcd (cpu : CPU) (op opcode : Nat) : CPU :=
  let reg_src := opcode &&& 0x7
  let reg_dst := (opcode >>> 9) &&& 0x7
  if op = OP_ABCD then
    let src := cpu.d reg_src &&& 0xFF
    let dst := cpu.d reg_dst &&& 0xFF
    let x := if m68k_get_flag cpu SR_EXTEND then 1 else 0
    let low0 := (dst &&& 0xF) + (src &&& 0xF) + x
    let low := if low0 > 9 then low0 + 6 else low0
    let carry_low := if low0 > 9 then 1 else 0
    let high0 := ((dst >>> 4) &&& 0xF) + ((src >>> 4) &&& 0xF) + carry_low
    let high := if high0 > 9 then high0 + 6 else high0
    let carry_high : Nat := if high0 > 9 then 1 else 0
    let result := ((high &&& 0xF) <<< 4) ||| (low &&& 0xF)
    let c1 := { cpu with d := updN cpu.d reg_dst ((cpu.d reg_dst &&& 0xFFFFFF00) ||| result) }
    let c2 := m68k_set_flag c1 SR_CARRY (carry_high ≠ 0)
    let c3 := m68k_set_flag c2 SR_EXTEND (carry_high ≠ 0)
    if result ≠ 0 then m68k_set_flag c3 SR_ZERO false else c3
  else if op = OP_SBCD then
    let src := cpu.d reg_src &&& 0xFF
    let dst := cpu.d reg_dst &&& 0xFF
    let x : Int := if m68k_get_flag cpu SR_EXTEND then 1 else 0
    let low0 : Int := (dst &&& 0xF : Nat) - (src &&& 0xF : Nat) - x
    let low : Int := if low0 < 0 then low0 - 6 else low0
    let borrow_low : Nat := if low0 < 0 then 1 else 0
    let high0 : Int := ((dst >>> 4) &&& 0xF : Nat) - ((src >>> 4) &&& 0xF : Nat) - borrow_low
    let high : Int := if high0 < 0 then high0 - 6 else high0
    let borrow_high : Nat := if high0 < 0 then 1 else 0
    let result := ((wrap16 high &&& 0xF) <<< 4) ||| (wrap16 low &&& 0xF)
    let c1 := { cpu with d := updN cpu.d reg_dst ((cpu.d reg_dst &&& 0xFFFFFF00) ||| result) }
    let c2 := m68k_set_flag c1 SR_CARRY (borrow_high ≠ 0)
    let c3 := m68k_set_flag c2 SR_EXTEND (borrow_high ≠ 0)
    if result ≠ 0 then m68k_set_flag c3 SR_ZERO false else c3
  else if op = OP_NBCD then
    let dst := cpu.d reg_dst &&& 0xFF
    let x : Int := if m68k_get_flag cpu SR_EXTEND then 1 else 0
    let low0 : Int := 0 - (dst &&& 0xF : Nat) - x
    let low : Int := if low0 < 0 then low0 - 6 else low0
    let borrow_low : Nat := if low0 < 0 then 1 else 0
    let high0 : Int := 0 - ((dst >>> 4) &&& 0xF : Nat) - borrow_low
    let high : Int := if high0 < 0 then high0 - 6 else high0
    let borrow_high : Nat := if high0 < 0 then 1 else 0
    let result := ((wrap16 high &&& 0xF) <<< 4) ||| (wrap16 low &&& 0xF)
    let c1 := { cpu with d := updN cpu.d reg_dst ((cpu.d reg_dst &&& 0xFFFFFF00) ||| result) }
    let c2 := m68k_set_flag c1 SR_CARRY (borrow_high ≠ 0)
    let c3 := m68k_set_flag c2 SR_EXTEND (borrow_high ≠ 0)
    if result ≠ 0 then m68k_set_flag c3 SR_ZERO false else c3
  else cpu

/-- `m68k_execute_branches` (m68k_execute2.c): BRA/BSR, the fourteen
conditional branches, DBcc, JMP/JSR, the three returns, and Scc.  The
handler's `displacement` variable is an `int8_t`, so when BRA/BSR/Bcc fetch
the word displacement form, the `(int16_t)` word is truncated back to a
sign-extended low byte on assignment (`toInt8` of the fetched word); only
DBcc declares its own 16-bit local and keeps the full word. -/
def m68k_execute_branches (cpu : CPU) (memory : Mem) (mem_size : Nat)
    (op opcode : Nat) : CPU × Mem :=
  let reg := opcode &&& 0x7
  let disp8 : Int := toInt8 (opcode &&& 0xFF)
  if op = OP_BRA then
    if disp8 = 0 then
      let r := m68k_fetch_word cpu memory mem_size
      ({ r.1 with pc := wrap32 ((r.1.pc : Int) + toInt8 r.2),
                  branch_count := r.1.branch_count + 1,
                  branch_taken := r.1.branch_taken + 1 }, memory)
    else
      ({ cpu with pc := wrap32 ((cpu.pc : Int) + disp8),
                  branch_count := cpu.branch_count + 1,
                  branch_taken := cpu.branch_taken + 1 }, memory)
  else if op = OP_BSR then
    let resolved : CPU × Int :=
      if disp8 = 0 then
        let r := m68k_fetch_word cpu memory mem_size
        (r.1, toInt8 r.2)
      else (cpu, disp8)
    let c0 := resolved.1
    let c1 := { c0 with a := updN c0.a 7 (wrap32 ((c0.a 7 : Int) - 4)) }
    let w := m68k_write_memory c1 memory mem_size (c1.a 7) c1.pc .long
    ({ w.1 with pc := wrap32 ((w.1.pc : Int) + resolved.2),
                branch_count := w.1.branch_count + 1,
                branch_taken := w.1.branch_taken + 1 }, w.2)
  else if OP_BCC ≤ op ∧ op ≤ OP_BVS then
    let condition := (opcode >>> 8) &&& 0xF
    let cpu := { cpu with branch_count := cpu.branch_count + 1 }
    if m68k_test_condition cpu condition then
      if disp8 = 0 then
        let r := m68k_fetch_word cpu memory mem_size
        ({ r.1 with pc := wrap32 ((r.1.pc : Int) + toInt8 r.2),
                    branch_taken := r.1.branch_taken + 1 }, memory)
      else
        ({ cpu with pc := wrap32 ((cpu.pc : Int) + disp8),
                    branch_taken := cpu.branch_taken + 1 }, memory)
    else (cpu, memory)
  else if OP_DBCC ≤ op ∧ op ≤ OP_DBF then
    let condition := (opcode >>> 8) &&& 0xF
    let r := m68k_fetch_word cpu memory mem_size
    let disp := toInt16 r.2
    if ! m68k_test_condition r.1 condition then
      let counter := wrap16 ((r.1.d reg &&& 0xFFFF : Nat) - (1 : Int))
      let c := { r.1 with d := updN r.1.d reg ((r.1.d reg &&& 0xFFFF0000) ||| counter) }
      if counter ≠ 0xFFFF then
        ({ c with pc := wrap32 ((c.pc : Int) + disp) }, memory)
      else (c, memory)
    else (r.1, memory)
  else if op = OP_JMP then
    let mode := (opcode >>> 3) &&& 0x7
    let reg := opcode &&& 0x7
    if mode = 2 then ({ cpu with pc := cpu.a reg }, memory)
    else if mode = 7 ∧ reg = 0 then
      let r := m68k_fetch_word cpu memory mem_size
      ({ r.1 with pc := r.2 }, memory)
    else if mode = 7 ∧ reg = 1 then
      let r := m68k_fetch_long cpu memory mem_size
      ({ r.1 with pc := r.2 }, memory)
    else (cpu, memory)
  else if op = OP_JSR then
    let mode := (opcode >>> 3) &&& 0x7
    let reg := opcode &&& 0x7
    let resolved : CPU × Nat :=
      if mode = 2 then (cpu, cpu.a reg)
      else if mode = 7 ∧ reg = 0 then m68k_fetch_word cpu memory mem_size
      else if mode = 7 ∧ reg = 1 then m68k_fetch_long cpu memory mem_size
      else (cpu, 0)
    let c0 := resolved.1
    let c1 := { c0 with a := updN c0.a 7 (wrap32 ((c0.a 7 : Int) - 4)) }
    let w := m68k_write_memory c1 memory mem_size (c1.a 7) c1.pc .long
    ({ w.1 with pc := resolved.2 }, w.2)
  else if op = OP_RTS then
    let r := m68k_read_memory cpu memory mem_size (cpu.a 7) .long
    ({ r.1 with a := updN r.1.a 7 (u32 (r.1.a 7 + 4)), pc := r.2 }, memory)
  else if op = OP_RTR then
    let r1 := m68k_read_memory cpu memory mem_size (cpu.a 7) .word
    let c1 := { r1.1 with a := updN r1.1.a 7 (u32 (r1.1.a 7 + 2)),
                          sr := (r1.1.sr &&& 0xFF00) ||| (r1.2 &&& 0x00FF) }
    let r2 := m68k_read_memory c1 memory mem_size (c1.a 7) .long
    ({ r2.1 with a := updN r2.1.a 7 (u32 (r2.1.a 7 + 4)), pc := r2.2 }, memory)
  else if op = OP_RTE then
    if cpu.sr &&& SR_SUPERVISOR = 0 then
      ({ cpu with halted := true }, memory)
    else
      let r1 := m68k_read_memory cpu memory mem_size (cpu.a 7) .word
      let c1 := { r1.1 with sr := r1.2, a := updN r1.1.a 7 (u32 (r1.1.a 7 + 2)) }
      let r2 := m68k_read_memory c1 memory mem_size (c1.a 7) .long
      ({ r2.1 with a := updN r2.1.a 7 (u32 (r2.1.a 7 + 4)), pc := r2.2 }, memory)
  else if OP_SCC ≤ op ∧ op ≤ OP_SF then
    let condition := (opcode >>> 8) &&& 0xF
    let reg := opcode &&& 0x7
    if m68k_test_condition cpu condition then
      ({ cpu with d := updN cpu.d reg ((cpu.d reg &&& 0xFFFFFF00) ||| 0xFF) }, memory)
    else
      ({ cpu with d := updN cpu.d reg (cpu.d reg &&& 0xFFFFFF00) }, memory)
  else (cpu, memory)

/-- `m68k_execute_special` (m68k_execute2.c): LEA/PEA/LINK/UNLK, SWAP, EXT,
EXG, TRAP (signal only), TRAPV, CHK, TAS, RESET and STOP.  Any other
operation tag routed here falls through the C switch's `default` and does
nothing. -/
def m68k_execute_special (cpu : CPU) (memory : Mem) (mem_size : Nat)
    (op opcode : Nat) : CPU × Mem :=
  let reg := opcode &&& 0x7
  if op = OP_LEA then
    let mode := (opcode >>> 3) &&& 0x7
    let reg_src := opcode &&& 0x7
    let reg_dst := (opcode >>> 9) &&& 0x7
    if mode = 2 then
      ({ cpu with a := updN cpu.a reg_dst (cpu.a reg_src) }, memory)
    else if mode = 5 then
      let r := m68k_fetch_word cpu memory mem_size
      ({ r.1 with a := updN r.1.a reg_dst (wrap32 ((r.1.a reg_src : Int) + toInt16 r.2)) }, memory)
    else if mode = 7 ∧ reg_src = 0 then
      let r := m68k_fetch_word cpu memory mem_size
      ({ r.1 with a := updN r.1.a reg_dst r.2 }, memory)
    else if mode = 7 ∧ reg_src = 1 then
      let r := m68k_fetch_long cpu memory mem_size
      ({ r.1 with a := updN r.1.a reg_dst r.2 }, memory)
    else (cpu, memory)
  else if op = OP_PEA then
    let mode := (opcode >>> 3) &&& 0x7
    let reg := opcode &&& 0x7
    let ea := if mode = 2 then cpu.a reg else 0
    let c1 := { cpu with a := updN cpu.a 7 (wrap32 ((cpu.a 7 : Int) - 4)) }
    m68k_write_memory c1 memory mem_size (c1.a 7) ea .long
  else if op = OP_LINK then
    let r := m68k_fetch_word cpu memory mem_size
    let disp := toInt16 r.2
    let c1 := { r.1 with a := updN r.1.a 7 (wrap32 ((r.1.a 7 : Int) - 4)) }
    let w := m68k_write_memory c1 memory mem_size (c1.a 7) (c1.a reg) .long
    let c2 := { w.1 with a := updN w.1.a reg (w.1.a 7) }
    ({ c2 with a := updN c2.a 7 (wrap32 ((c2.a 7 : Int) + disp)) }, w.2)
  else if op = OP_UNLK then
    let c1 := { cpu with a := updN cpu.a 7 (cpu.a reg) }
    let r := m68k_read_memory c1 memory mem_size (c1.a 7) .long
    let c2 := { r.1 with a := updN r.1.a reg r.2 }
    ({ c2 with a := updN c2.a 7 (u32 (c2.a 7 + 4)) }, memory)
  else if op = OP_SWAP then
    let value := cpu.d reg
    let c1 := { cpu with d := updN cpu.d reg (((value &&& 0xFFFF) <<< 16) ||| ((value >>> 16) &&& 0xFFFF)) }
    let c2 := m68k_set_flags c1 (c1.d reg) .long
    let c3 := m68k_set_flag c2 SR_CARRY false
    (m68k_set_flag c3 SR_OVERFLOW false, memory)
  else if op = OP_EXT then
    let c1 :=
      if opcode &&& 0x0040 = 0 then
        { cpu with d := updN cpu.d reg ((cpu.d reg &&& 0xFFFF0000) ||| wrap16 (toInt8 (cpu.d reg &&& 0xFF))) }
      else
        { cpu with d := updN cpu.d reg (wrap32 (toInt16 (cpu.d reg &&& 0xFFFF))) }
    let c2 := m68k_set_flags c1 (c1.d reg) .long
    let c3 := m68k_set_flag c2 SR_CARRY false
    (m68k_set_flag c3 SR_OVERFLOW false, memory)
  else if op = OP_EXG then
    let reg1 := (opcode >>> 9) &&& 0x7
    let reg2 := opcode &&& 0x7
    let mode := (opcode >>> 3) &&& 0x1F
    if mode = 0x08 then
      let temp := cpu.d reg1
      ({ cpu with d := updN (updN cpu.d reg1 (cpu.d reg2)) reg2 temp }, memory)
    else if mode = 0x09 then
      let temp := cpu.a reg1
      ({ cpu with a := updN (updN cpu.a reg1 (cpu.a reg2)) reg2 temp }, memory)
    else if mode = 0x11 then
      let temp := cpu.d reg1
      ({ cpu with d := updN cpu.d reg1 (cpu.a reg2),
                  a := updN cpu.a reg2 temp }, memory)
    else (cpu, memory)
  else if op = OP_TRAP then
    (cpu, memory)
  else if op = OP_TRAPV then
    if m68k_get_flag cpu SR_OVERFLOW then ({ cpu with halted := true }, memory)
    else (cpu, memory)
  else if op = OP_CHK then
    let reg_data := (opcode >>> 9) &&& 0x7
    let data := toInt16 (cpu.d reg_data &&& 0xFFFF)
    let upper := toInt16 (cpu.d reg &&& 0xFFFF)
    if data < 0 ∨ data > upper then ({ cpu with halted := true }, memory)
    else (cpu, memory)
  else if op = OP_TAS then
    let value := cpu.d reg &&& 0xFF
    let c1 := m68k_set_flags cpu value .byte
    let c2 := m68k_set_flag c1 SR_CARRY false
    let c3 := m68k_set_flag c2 SR_OVERFLOW false
    ({ c3 with d := updN c3.d reg (c3.d reg ||| 0x80) }, memory)
  else if op = OP_RESET then
    if cpu.sr &&& SR_SUPERVISOR ≠ 0 then (cpu, memory)
    else ({ cpu with halted := true }, memory)
  else if op = OP_STOP then
    if cpu.sr &&& SR_SUPERVISOR ≠ 0 then
      let r := m68k_fetch_word cpu memory mem_size
      ({ r.1 with sr := r.2, halted := true }, memory)
    else ({ cpu with halted := true }, memory)
  else (cpu, memory)

/-- `m68k_execute_fpu` (m68k_execute_complete.c): scalar double-precision
operations on the eight FPU registers, which this state carries as raw 64-bit
patterns.  `FMOVE` is a plain register copy and is modelled bit-exactly; the
remaining cases (IEEE-double arithmetic, compares, transcendentals) are
floating-point and outside this integer embedding, left as the identity.
`m68k_decode_instruction` never produces an FPU tag, so the step controller
cannot reach any of these cases. -/
def m68k_execute_fpu (cpu : CPU) (op opcode : Nat) : CPU :=
  let reg_src := opcode &&& 0x7
  let reg_dst := (opcode >>> 7) &&& 0x7
  if op = OP_FMOVE then
    { cpu with apollo_fp := updN cpu.apollo_fp reg_dst (cpu.apollo_fp reg_src) }
  else cpu

/-- The descending scan of the `OP_BFFFO` loop: the first `j < width` (from
the most significant end of the field) whose bit `width - 1 - j` is set. -/
def bfffoFind (field width : Nat) : Option Nat :=
  (List.range width).find? (fun j => decide (field &&& (1 <<< (width - 1 - j)) ≠ 0))

/-- `m68k_execute_bitfield` (m68k_execute_complete.c): 68020+ bit-field
operations over a data register, driven by one extension word (width 0 means
32).  C shift expressions whose counts can reach the type width are modelled
by their exact arithmetic value. -/
def m68k_execute_bitfield (cpu : CPU) (memory : Mem) (mem_size : Nat)
    (op opcode : Nat) : CPU :=
  let reg := opcode &&& 0x7
  let r := m68k_fetch_word cpu memory mem_size
  let c0 := r.1
  let extension := r.2
  let offset := (extension >>> 6) &&& 0x1F
  let width0 := extension &&& 0x1F
  let width := if width0 = 0 then 32 else width0
  let value := c0.d reg
  let mask := u32 ((2 ^ width - 1) <<< offset)
  if op = OP_BFCHG then
    let c1 := m68k_set_flag c0 SR_ZERO (decide (value &&& mask = 0))
    { c1 with d := updN c1.d reg (value ^^^ mask) }
  else if op = OP_BFCLR then
    let c1 := m68k_set_flag c0 SR_ZERO (decide (value &&& mask = 0))
    { c1 with d := updN c1.d reg (value &&& (0xFFFFFFFF ^^^ mask)) }
  else if op = OP_BFSET then
    let c1 := m68k_set_flag c0 SR_ZERO (decide (value &&& mask = 0))
    { c1 with d := updN c1.d reg (value ||| mask) }
  else if op = OP_BFTST then
    m68k_set_flag c0 SR_ZERO (decide (value &&& mask = 0))
  else if op = OP_BFEXTU then
    let dst_reg := (extension >>> 12) &&& 0x7
    let extracted := (value &&& mask) >>> offset
    let c1 := { c0 with d := updN c0.d dst_reg extracted }
    let c2 := m68k_set_flag c1 SR_ZERO (decide (extracted = 0))
    m68k_set_flag c2 SR_NEGATIVE false
  else if op = OP_BFEXTS then
    let dst_reg := (extension >>> 12) &&& 0x7
    let extracted := (value &&& mask) >>> offset
    let final :=
      if extracted &&& (1 <<< (width - 1)) ≠ 0 then
        extracted ||| u32 (0xFFFFFFFF <<< width)
      else extracted
    let c1 := { c0 with d := updN c0.d dst_reg final }
    let c2 := m68k_set_flag c1 SR_ZERO (decide (final = 0))
    m68k_set_flag c2 SR_NEGATIVE (decide (final ≥ 2147483648))
  else if op = OP_BFINS then
    let src_reg := (extension >>> 12) &&& 0x7
    let src_value := c0.d src_reg &&& u32 ((1 <<< width) - 1)
    { c0 with d := updN c0.d reg ((value &&& (0xFFFFFFFF ^^^ mask)) ||| ((src_value <<< offset) &&& mask)) }
  else if op = OP_BFFFO then
    let dst_reg := (extension >>> 12) &&& 0x7
    let field := (value &&& mask) >>> offset
    match bfffoFind field width with
    | some j =>
        let c1 := { c0 with d := updN c0.d dst_reg (offset + j) }
        m68k_set_flag c1 SR_ZERO false
    | none =>
        let c1 := { c0 with d := updN c0.d dst_reg (offset + width) }
        m68k_set_flag c1 SR_ZERO true
  else c0

/-- `m68k_execute_extended` (m68k_execute_complete.c): the 68010/68020+
instructions (EXTB, PACK/UNPK, 32-bit divides, CAS/CAS2, CMP2, CALLM, RTD,
BKPT, MOVEC, MOVES).  The C code indexes `d[]`/`a[]` with a 4-bit register
number in MOVEC/MOVES; the total register maps of this model extend those
out-of-range accesses. -/
def m68k_execute_extended (cpu : CPU) (memory : Mem) (mem_size : Nat)
    (op opcode : Nat) : CPU :=
  let reg_dst := (opcode >>> 9) &&& 0x7
  let reg_src := opcode &&& 0x7
  if op = OP_EXTB then
    let c1 := { cpu with d := updN cpu.d reg_dst (wrap32 (toInt8 (cpu.d reg_dst &&& 0xFF))) }
    m68k_set_flags c1 (c1.d reg_dst) .long
  else if op = OP_PACK then
    let r := m68k_fetch_word cpu memory mem_size
    let src := r.1.d reg_src &&& 0xFFFF
    let result := u8 ((((src >>> 4) &&& 0xF0) ||| (src &&& 0x0F)) + r.2)
    { r.1 with d := updN r.1.d reg_dst ((r.1.d reg_dst &&& 0xFFFFFF00) ||| result) }
  else if op = OP_UNPK then
    let r := m68k_fetch_word cpu memory mem_size
    let src := r.1.d reg_src &&& 0xFF
    let result := u16 ((((src &&& 0xF0) <<< 4) ||| (src &&& 0x0F)) + r.2)
    { r.1 with d := updN r.1.d reg_dst ((r.1.d reg_dst &&& 0xFFFF0000) ||| result) }
  else if op = OP_DIVSL then
    let divisor := cpu.d reg_src
    let r := m68k_fetch_word cpu memory mem_size
    let dividend_reg := (r.2 >>> 12) &&& 0x7
    let dividend := toInt32 (r.1.d dividend_reg)
    let c1 :=
      if divisor = 0 then { r.1 with halted := true }
      else
        let quotient := Int.tdiv dividend (toInt32 divisor)
        let remainder := Int.tmod dividend (toInt32 divisor)
        let c := { r.1 with d := updN (updN r.1.d reg_dst (wrap32 quotient)) dividend_reg (wrap32 remainder) }
        m68k_set_flags c (wrap32 quotient) .long
    { c1 with cycle_count := c1.cycle_count + 90 }
  else if op = OP_DIVUL then
    let divisor := cpu.d reg_src
    let r := m68k_fetch_word cpu memory mem_size
    let dividend_reg := (r.2 >>> 12) &&& 0x7
    let dividend := r.1.d dividend_reg
    let c1 :=
      if divisor = 0 then { r.1 with halted := true }
      else
        let c := { r.1 with d := updN (updN r.1.d reg_dst (dividend / divisor)) dividend_reg (dividend % divisor) }
        m68k_set_flags c (dividend / divisor) .long
    { c1 with cycle_count := c1.cycle_count + 78 }
  else if op = OP_CAS then
    let r := m68k_fetch_word cpu memory mem_size
    let compare_reg := r.2 &&& 0x7
    let update_reg := (r.2 >>> 6) &&& 0x7
    let compare_val := r.1.d compare_reg
    let dest_val := r.1.d reg_dst
    let c1 :=
      if compare_val = dest_val then
        m68k_set_flag { r.1 with d := updN r.1.d reg_dst (r.1.d update_reg) } SR_ZERO true
      else
        m68k_set_flag { r.1 with d := updN r.1.d compare_reg dest_val } SR_ZERO false
    m68k_set_flag c1 SR_NEGATIVE (decide (wrap32 ((dest_val : Int) - (compare_val : Int)) ≥ 2147483648))
  else if op = OP_CAS2 then
    let r1 := m68k_fetch_word cpu memory mem_size
    let r2 := m68k_fetch_word r1.1 memory mem_size
    let c0 := r2.1
    let cmp1_reg := r1.2 &&& 0x7
    let cmp2_reg := r2.2 &&& 0x7
    let upd1_reg := (r1.2 >>> 6) &&& 0x7
    let upd2_reg := (r2.2 >>> 6) &&& 0x7
    if c0.d cmp1_reg = c0.d reg_dst ∧ c0.d cmp2_reg = c0.d reg_src then
      m68k_set_flag { c0 with d := updN (updN c0.d reg_dst (c0.d upd1_reg)) reg_src (c0.d upd2_reg) } SR_ZERO true
    else
      m68k_set_flag c0 SR_ZERO false
  else if op = OP_CMP2 then
    let r := m68k_fetch_word cpu memory mem_size
    let reg_to_check := (r.2 >>> 12) &&& 0x7
    let is_addr := (r.2 >>> 15) &&& 1 = 1
    let value := if is_addr then r.1.a reg_to_check else r.1.d reg_to_check
    let in_bounds := decide (r.1.d reg_src ≤ value ∧ value ≤ r.1.d reg_dst)
    let c1 := m68k_set_flag r.1 SR_ZERO in_bounds
    m68k_set_flag c1 SR_CARRY (! in_bounds)
  else if op = OP_CALLM then
    (m68k_fetch_word cpu memory mem_size).1
  else if op = OP_RTD then
    let r := m68k_fetch_word cpu memory mem_size
    let disp := toInt16 r.2
    let rd := m68k_read_memory r.1 memory mem_size (r.1.a 7) .long
    { rd.1 with a := updN rd.1.a 7 (wrap32 ((rd.1.a 7 : Int) + 4 + disp)), pc := rd.2 }
  else if op = OP_BKPT then
    { cpu with halted := true }
  else if op = OP_MOVEC then
    let r := m68k_fetch_word cpu memory mem_size
    let gpr := (r.2 >>> 12) &&& 0xF
    let ctrl_reg := r.2 &&& 0xFFF
    let to_control := opcode &&& 1 = 1
    if r.1.sr &&& SR_SUPERVISOR = 0 then { r.1 with halted := true }
    else if ctrl_reg = 0x000 ∨ ctrl_reg = 0x001 ∨ ctrl_reg = 0x800 then
      if to_control then
        { r.1 with usp := if gpr < 8 then r.1.d gpr else r.1.a (gpr - 8) }
      else
        if gpr < 8 then { r.1 with d := updN r.1.d gpr r.1.usp }
        else { r.1 with a := updN r.1.a (gpr - 8) r.1.usp }
    else if ctrl_reg = 0x801 then
      if to_control then
        { r.1 with vbr := if gpr < 8 then r.1.d gpr else r.1.a (gpr - 8) }
      else
        if gpr < 8 then { r.1 with d := updN r.1.d gpr r.1.vbr }
        else { r.1 with a := updN r.1.a (gpr - 8) r.1.vbr }
    else r.1
  else if op = OP_MOVES then
    let r := m68k_fetch_word cpu memory mem_size
    let reg_num := (r.2 >>> 12) &&& 0xF
    let is_addr := (r.2 >>> 15) &&& 1 = 1
    let to_mem := (r.2 >>> 11) &&& 1 = 1
    if r.1.sr &&& SR_SUPERVISOR = 0 then { r.1 with halted := true }
    else if to_mem then
      let value := if is_addr then r.1.a reg_num else r.1.d reg_num
      { r.1 with d := updN r.1.d reg_dst value }
    else
      let value := r.1.d reg_src
      if is_addr then { r.1 with a := updN r.1.a reg_num value }
      else { r.1 with d := updN r.1.d reg_num value }
  else cpu

/-- Ascending lane loop: apply `step` to lanes 0 through `n - 1` in order,
each step seeing the writes of the previous ones, exactly like the C
`for (i = 0; i < 8; i++)` loops over (possibly overlapping) `uint64_t`
views of the vector register file. -/
def vecLanes (step : (Nat → Nat) → Nat → (Nat → Nat)) : Nat → (Nat → Nat) → (Nat → Nat)
  | 0, v => v
  | Nat.succ k, v => step (vecLanes step k v) k

/-- `m68k_vector_add` (m68k_cpu_extended.c): lane-wise 64-bit addition over
eight consecutive `uint64_t` lanes starting at each operand's register
index. -/
def m68k_vector_add (cpu : CPU) (dst src1 src2 : Nat) : CPU :=
  if ¬cpu.apollo_mode ∨ dst ≥ 16 ∨ src1 ≥ 16 ∨ src2 ≥ 16 then cpu
  else
    { cpu with apollo_v :=
        vecLanes (fun v i => updN v (dst + i) (u64 (v (src1 + i) + v (src2 + i)))) 8 cpu.apollo_v }

/-- `m68k_vector_mul` (m68k_cpu_extended.c): lane-wise 64-bit product. -/
def m68k_vector_mul (cpu : CPU) (dst src1 src2 : Nat) : CPU :=
  if ¬cpu.apollo_mode ∨ dst ≥ 16 ∨ src1 ≥ 16 ∨ src2 ≥ 16 then cpu
  else
    { cpu with apollo_v :=
        vecLanes (fun v i => updN v (dst + i) (u64 (v (src1 + i) * v (src2 + i)))) 8 cpu.apollo_v }

/-- `m68k_execute_apollo_simd` (m68k_execute_complete.c): the SIMD family over
the vector register lanes; using it with the extension disabled is fatal.
`VDOT`, `VABS` and `VSQRT` reinterpret lanes as IEEE floats and are outside
this integer embedding (identity here); they are unreachable from the
decoder, as is the whole family. -/
def m68k_execute_apollo_simd (cpu : CPU) (op opcode : Nat) : CPU :=
  if ¬cpu.apollo_mode then { cpu with halted := true }
  else
    let vdst := (opcode >>> 6) &&& 0xF
    let vsrc1 := (opcode >>> 3) &&& 0xF
    let vsrc2 := opcode &&& 0x7
    if op = OP_VADD then m68k_vector_add cpu vdst vsrc1 vsrc2
    else if op = OP_VSUB then
      { cpu with apollo_v :=
          vecLanes (fun v i => updN v (vdst + i) (u64 ((v (vsrc1 + i) + 18446744073709551616) - u64 (v (vsrc2 + i))))) 8 cpu.apollo_v }
    else if op = OP_VMUL then m68k_vector_mul cpu vdst vsrc1 vsrc2
    else if op = OP_VDIV then
      { cpu with apollo_v :=
          vecLanes (fun v i => if v (vsrc2 + i) ≠ 0 then updN v (vdst + i) (v (vsrc1 + i) / v (vsrc2 + i)) else v) 8 cpu.apollo_v }
    else if op = OP_VAND then
      { cpu with apollo_v :=
          vecLanes (fun v i => updN v (vdst + i) (v (vsrc1 + i) &&& v (vsrc2 + i))) 8 cpu.apollo_v }
    else if op = OP_VOR then
      { cpu with apollo_v :=
          vecLanes (fun v i => updN v (vdst + i) (v (vsrc1 + i) ||| v (vsrc2 + i))) 8 cpu.apollo_v }
    else if op = OP_VXOR then
      { cpu with apollo_v :=
          vecLanes (fun v i => updN v (vdst + i) (v (vsrc1 + i) ^^^ v (vsrc2 + i))) 8 cpu.apollo_v }
    else if op = OP_VNOT then
      { cpu with apollo_v :=
          vecLanes (fun v i => updN v (vdst + i) (18446744073709551615 ^^^ u64 (v (vsrc1 + i)))) 8 cpu.apollo_v }
    else if op = OP_VMIN then
      { cpu with apollo_v :=
          vecLanes (fun v i => updN v (vdst + i) (if v (vsrc1 + i) < v (vsrc2 + i) then v (vsrc1 + i) else v (vsrc2 + i))) 8 cpu.apollo_v }
    else if op = OP_VMAX then
      { cpu with apollo_v :=
          vecLanes (fun v i => updN v (vdst + i) (if v (vsrc1 + i) > v (vsrc2 + i) then v (vsrc1 + i) else v (vsrc2 + i))) 8 cpu.apollo_v }
    else if op = OP_VSUM then
      let sum := u64 (cpu.apollo_v vsrc1 + cpu.apollo_v (vsrc1 + 1) + cpu.apollo_v (vsrc1 + 2) +
        cpu.apollo_v (vsrc1 + 3) + cpu.apollo_v (vsrc1 + 4) + cpu.apollo_v (vsrc1 + 5) +
        cpu.apollo_v (vsrc1 + 6) + cpu.apollo_v (vsrc1 + 7))
      { cpu with d := updN cpu.d (vdst &&& 0x7) (sum &&& 0xFFFFFFFF) }
    else if op = OP_VLOAD then
      { cpu with apollo_v := vecLanes (fun v i => updN v (vdst + i) 0) 8 cpu.apollo_v }
    else if op = OP_VSTORE then cpu
    else if op = OP_VMOVE then
      { cpu with apollo_v := vecLanes (fun v i => updN v (vdst + i) (v (vsrc1 + i))) 8 cpu.apollo_v }
    else cpu

/-- `m68k_execute_apollo_64bit` (m68k_execute_complete.c): 64-bit integer
arithmetic over pairs of data registers; fatal with the extension disabled;
64-bit division by zero halts without storing. -/
def m68k_execute_apollo_64bit (cpu : CPU) (op opcode : Nat) : CPU :=
  if ¬cpu.apollo_mode then { cpu with halted := true }
  else
    let reg_dst := (opcode >>> 9) &&& 0x7
    let reg_src := opcode &&& 0x7
    let dst_hi := (reg_dst * 2) &&& 7
    let dst_lo := (reg_dst * 2 + 1) &&& 7
    let src_hi := (reg_src * 2) &&& 7
    let src_lo := (reg_src * 2 + 1) &&& 7
    let dst_val := (cpu.d dst_hi <<< 32) ||| cpu.d dst_lo
    let src_val := (cpu.d src_hi <<< 32) ||| cpu.d src_lo
    let store := fun (result : Nat) =>
      let c := { cpu with d := updN (updN cpu.d dst_hi (u32 (result >>> 32))) dst_lo (result &&& 0xFFFFFFFF) }
      let c := m68k_set_flag c SR_ZERO (decide (result = 0))
      m68k_set_flag c SR_NEGATIVE (decide (result ≥ 9223372036854775808))
    if op = OP_ADD64 then store (u64 (dst_val + src_val))
    else if op = OP_SUB64 then store (u64 ((dst_val + 18446744073709551616) - u64 src_val))
    else if op = OP_MUL64 then store (u64 (dst_val * src_val))
    else if op = OP_DIV64 then
      if src_val ≠ 0 then store (dst_val / src_val)
      else { cpu with halted := true }
    else if op = OP_MOVE64 then store src_val
    else if op = OP_CMP64 then
      let result := u64 ((dst_val + 18446744073709551616) - u64 src_val)
      let c := m68k_set_flag cpu SR_ZERO (decide (result = 0))
      m68k_set_flag c SR_NEGATIVE (decide (result ≥ 9223372036854775808))
    else cpu

/-- `m68k_execute_complete` (m68k_execute_complete.c): range dispatcher for
the remaining instruction families.  Note that its bit-field range stops at
`OP_BFFFO`, so `OP_BFINS`/`OP_BFSET`/`OP_BFTST` match none of the ranges and
fall through with no effect, exactly as in the source. -/
def m68k_execute_complete (cpu : CPU) (memory : Mem) (mem_size : Nat)
    (op opcode : Nat) : CPU :=
  if OP_FMOVE ≤ op ∧ op ≤ OP_FTAN then m68k_execute_fpu cpu op opcode
  else if OP_BFCHG ≤ op ∧ op ≤ OP_BFFFO then
    m68k_execute_bitfield cpu memory mem_size op opcode
  else if op = OP_EXTB ∨ op = OP_PACK ∨ op = OP_UNPK ∨ op = OP_DIVSL ∨
      op = OP_DIVUL ∨ op = OP_CAS ∨ op = OP_CAS2 ∨ op = OP_CMP2 ∨
      op = OP_CALLM ∨ op = OP_RTD ∨ op = OP_BKPT ∨ op = OP_MOVEC ∨
      op = OP_MOVES then
    m68k_execute_extended cpu memory mem_size op opcode
  else if OP_VADD ≤ op ∧ op ≤ OP_VMOVE then m68k_execute_apollo_simd cpu op opcode
  else if OP_ADD64 ≤ op ∧ op ≤ OP_CMP64 then m68k_execute_apollo_64bit cpu op opcode
  else cpu

/-- `get_size` (m68k_execute.c): the two size bits of the opcode word
(0 → byte, 1 → word, 2 → long, 3 → word). -/
def get_size (opcode : Nat) : OperandSize :=
  let size_bits := (opcode >>> 6) &&& 0x3
  if size_bits = 0 then .byte else if size_bits = 1 then .word
  else if size_bits = 2 then .long else .word

/-- One iteration of the shift/rotate loop of `m68k_execute_instruction`:
compute the outgoing carry from the current value, shift one bit (folding in
the rotate/extend bit where the operation asks for it), and latch carry and
extend. -/
def shiftStep (op : Nat) (cpu : CPU) (value : Nat) : CPU × Nat :=
  if op = OP_ASL ∨ op = OP_LSL ∨ op = OP_ROL ∨ op = OP_ROXL then
    let carry := decide (value &&& 0x80000000 ≠ 0)
    let v1 := u32 (value <<< 1)
    let v2 := if op = OP_ROL then v1 ||| (if carry then 1 else 0) else v1
    let v3 := if op = OP_ROXL then v2 ||| (if m68k_get_flag cpu SR_EXTEND then 1 else 0) else v2
    let c1 := m68k_set_flag cpu SR_CARRY carry
    (m68k_set_flag c1 SR_EXTEND carry, v3)
  else
    let carry := decide (value &&& 0x1 ≠ 0)
    let v1 :=
      if op = OP_ASR then
        (value >>> 1) ||| (if value &&& 0x80000000 ≠ 0 then 0x80000000 else 0)
      else value >>> 1
    let v2 := if op = OP_ROR then v1 ||| (if carry then 0x80000000 else 0) else v1
    let v3 := if op = OP_ROXR then v2 ||| (if m68k_get_flag cpu SR_EXTEND then 0x80000000 else 0) else v2
    let c1 := m68k_set_flag cpu SR_CARRY carry
    (m68k_set_flag c1 SR_EXTEND carry, v3)

/-- The `for (i = 0; i < count; i++)` shift/rotate loop. -/
def shiftLoop : Nat → Nat → CPU → Nat → CPU × Nat
  | 0, _, cpu, value => (cpu, value)
  | Nat.succ k, op, cpu, value =>
      let r := shiftStep op cpu value
      shiftLoop k op r.1 r.2

/-- `m68k_execute_instruction` (m68k_execute.c): the general execution family
(data movement, arithmetic, logic, compare, multiply/divide, shift/rotate),
falling through to `m68k_execute_complete` for anything it does not handle,
and incrementing the instruction counter once at the end. -/
def m68k_execute_instruction (cpu : CPU) (memory : Mem) (mem_size : Nat)
    (op opcode : Nat) : CPU :=
  let reg_dst := (opcode >>> 9) &&& 0x7
  let reg_src := opcode &&& 0x7
  let size := get_size opcode
  let c :=
    if op = OP_NOP then cpu
    else if op = OP_MOVE then
      let value := cpu.d reg_src
      m68k_set_flags { cpu with d := updN cpu.d reg_dst value } value size
    else if op = OP_MOVEA then
      { cpu with a := updN cpu.a reg_dst (cpu.d reg_src) }
    else if op = OP_MOVEQ then
      let c1 := { cpu with d := updN cpu.d reg_dst (wrap32 (toInt8 (opcode &&& 0xFF))) }
      m68k_set_flags c1 (c1.d reg_dst) .long
    else if op = OP_ADD then
      let src := cpu.d reg_src
      let dst := cpu.d reg_dst
      let result := u32 (dst + src)
      m68k_set_flags_add { cpu with d := updN cpu.d reg_dst result } src dst result size
    else if op = OP_ADDA then
      { cpu with a := updN cpu.a reg_dst (u32 (cpu.a reg_dst + cpu.d reg_src)) }
    else if op = OP_ADDI then
      let r := if size = .long then m68k_fetch_long cpu memory mem_size
               else m68k_fetch_word cpu memory mem_size
      let dst := r.1.d reg_dst
      let result := u32 (dst + r.2)
      m68k_set_flags_add { r.1 with d := updN r.1.d reg_dst result } r.2 dst result size
    else if op = OP_ADDQ then
      let quick := if reg_dst ≠ 0 then reg_dst else 8
      let dst := cpu.d reg_src
      let result := u32 (dst + quick)
      m68k_set_flags_add { cpu with d := updN cpu.d reg_src result } quick dst result size
    else if op = OP_ADDX then
      let src := cpu.d reg_src
      let dst := cpu.d reg_dst
      let x := if m68k_get_flag cpu SR_EXTEND then 1 else 0
      let result := u32 (dst + src + x)
      m68k_set_flags_add { cpu with d := updN cpu.d reg_dst result } (u32 (src + x)) dst result size
    else if op = OP_SUB then
      let src := cpu.d reg_src
      let dst := cpu.d reg_dst
      let result := wrap32 ((dst : Int) - (src : Int))
      m68k_set_flags_sub { cpu with d := updN cpu.d reg_dst result } src dst result size
    else if op = OP_SUBA then
      { cpu with a := updN cpu.a reg_dst (wrap32 ((cpu.a reg_dst : Int) - (cpu.d reg_src : Int))) }
    else if op = OP_SUBI then
      let r := if size = .long then m68k_fetch_long cpu memory mem_size
               else m68k_fetch_word cpu memory mem_size
      let dst := r.1.d reg_dst
      let result := wrap32 ((dst : Int) - (r.2 : Int))
      m68k_set_flags_sub { r.1 with d := updN r.1.d reg_dst result } r.2 dst result size
    else if op = OP_SUBQ then
      let quick := if reg_dst ≠ 0 then reg_dst else 8
      let dst := cpu.d reg_src
      let result := wrap32 ((dst : Int) - (quick : Int))
      m68k_set_flags_sub { cpu with d := updN cpu.d reg_src result } quick dst result size
    else if op = OP_SUBX then
      let src := cpu.d reg_src
      let dst := cpu.d reg_dst
      let x : Nat := if m68k_get_flag cpu SR_EXTEND then 1 else 0
      let result := wrap32 ((dst : Int) - (src : Int) - (x : Int))
      m68k_set_flags_sub { cpu with d := updN cpu.d reg_dst result } (u32 (src + x)) dst result size
    else if op = OP_CMP then
      let src := cpu.d reg_src
      let dst := cpu.d reg_dst
      m68k_set_flags_sub cpu src dst (wrap32 ((dst : Int) - (src : Int))) size
    else if op = OP_CMPA then
      let src := cpu.d reg_src
      let dst := cpu.a reg_dst
      m68k_set_flags_sub cpu src dst (wrap32 ((dst : Int) - (src : Int))) .long
    else if op = OP_CMPI then
      let r := if size = .long then m68k_fetch_long cpu memory mem_size
               else m68k_fetch_word cpu memory mem_size
      let dst := r.1.d reg_dst
      m68k_set_flags_sub r.1 r.2 dst (wrap32 ((dst : Int) - (r.2 : Int))) size
    else if op = OP_AND then
      let result := cpu.d reg_dst &&& cpu.d reg_src
      let c1 := m68k_set_flags { cpu with d := updN cpu.d reg_dst result } result size
      m68k_set_flag (m68k_set_flag c1 SR_CARRY false) SR_OVERFLOW false
    else if op = OP_ANDI then
      let r := if size = .long then m68k_fetch_long cpu memory mem_size
               else m68k_fetch_word cpu memory mem_size
      let result := r.1.d reg_dst &&& r.2
      let c1 := m68k_set_flags { r.1 with d := updN r.1.d reg_dst result } result size
      m68k_set_flag (m68k_set_flag c1 SR_CARRY false) SR_OVERFLOW false
    else if op = OP_OR then
      let result := cpu.d reg_dst ||| cpu.d reg_src
      let c1 := m68k_set_flags { cpu with d := updN cpu.d reg_dst result } result size
      m68k_set_flag (m68k_set_flag c1 SR_CARRY false) SR_OVERFLOW false
    else if op = OP_ORI then
      let r := if size = .long then m68k_fetch_long cpu memory mem_size
               else m68k_fetch_word cpu memory mem_size
      let result := r.1.d reg_dst ||| r.2
      let c1 := m68k_set_flags { r.1 with d := updN r.1.d reg_dst result } result size
      m68k_set_flag (m68k_set_flag c1 SR_CARRY false) SR_OVERFLOW false
    else if op = OP_EOR then
      let result := cpu.d reg_dst ^^^ cpu.d reg_src
      let c1 := m68k_set_flags { cpu with d := updN cpu.d reg_dst result } result size
      m68k_set_flag (m68k_set_flag c1 SR_CARRY false) SR_OVERFLOW false
    else if op = OP_EORI then
      let r := if size = .long then m68k_fetch_long cpu memory mem_size
               else m68k_fetch_word cpu memory mem_size
      let result := r.1.d reg_dst ^^^ r.2
      let c1 := m68k_set_flags { r.1 with d := updN r.1.d reg_dst result } result size
      m68k_set_flag (m68k_set_flag c1 SR_CARRY false) SR_OVERFLOW false
    else if op = OP_NOT then
      let result := u32 (cpu.d reg_dst) ^^^ 0xFFFFFFFF
      let c1 := m68k_set_flags { cpu with d := updN cpu.d reg_dst result } result size
      m68k_set_flag (m68k_set_flag c1 SR_CARRY false) SR_OVERFLOW false
    else if op = OP_NEG then
      let dst := cpu.d reg_dst
      let result := wrap32 (-(toInt32 dst))
      m68k_set_flags_sub { cpu with d := updN cpu.d reg_dst result } dst 0 result size
    else if op = OP_NEGX then
      let dst := cpu.d reg_dst
      let x : Nat := if m68k_get_flag cpu SR_EXTEND then 1 else 0
      let result := wrap32 (-(toInt32 dst) - (x : Int))
      m68k_set_flags_sub { cpu with d := updN cpu.d reg_dst result } (u32 (dst + x)) 0 result size
    else if op = OP_CLR then
      let c1 := { cpu with d := updN cpu.d reg_dst 0 }
      let c2 := m68k_set_flag c1 SR_NEGATIVE false
      let c3 := m68k_set_flag c2 SR_ZERO true
      m68k_set_flag (m68k_set_flag c3 SR_OVERFLOW false) SR_CARRY false
    else if op = OP_TST then
      let c1 := m68k_set_flags cpu (cpu.d reg_dst) size
      m68k_set_flag (m68k_set_flag c1 SR_CARRY false) SR_OVERFLOW false
    else if op = OP_MULU then
      let src := cpu.d reg_src &&& 0xFFFF
      let dst := cpu.d reg_dst &&& 0xFFFF
      let result := src * dst
      let c1 := m68k_set_flags { cpu with d := updN cpu.d reg_dst result } result .long
      let c2 := m68k_set_flag (m68k_set_flag c1 SR_CARRY false) SR_OVERFLOW false
      { c2 with cycle_count := c2.cycle_count + 70 }
    else if op = OP_MULS then
      let src := toInt16 (cpu.d reg_src &&& 0xFFFF)
      let dst := toInt16 (cpu.d reg_dst &&& 0xFFFF)
      let result := wrap32 (src * dst)
      let c1 := m68k_set_flags { cpu with d := updN cpu.d reg_dst result } result .long
      let c2 := m68k_set_flag (m68k_set_flag c1 SR_CARRY false) SR_OVERFLOW false
      { c2 with cycle_count := c2.cycle_count + 70 }
    else if op = OP_DIVU then
      let src := cpu.d reg_src &&& 0xFFFF
      let dst := cpu.d reg_dst
      let c1 :=
        if src = 0 then { cpu with halted := true }
        else
          let quotient := u16 (dst / src)
          let remainder := u16 (dst % src)
          let c := { cpu with d := updN cpu.d reg_dst ((remainder <<< 16) ||| quotient) }
          m68k_set_flag (m68k_set_flag (m68k_set_flags c quotient .word) SR_CARRY false) SR_OVERFLOW false
      { c1 with cycle_count := c1.cycle_count + 140 }
    else if op = OP_DIVS then
      let src := toInt16 (cpu.d reg_src &&& 0xFFFF)
      let dst := toInt32 (cpu.d reg_dst)
      let c1 :=
        if src = 0 then { cpu with halted := true }
        else
          let quotient := wrap16 (Int.tdiv dst src)
          let remainder := wrap16 (Int.tmod dst src)
          let c := { cpu with d := updN cpu.d reg_dst ((remainder <<< 16) ||| quotient) }
          m68k_set_flag (m68k_set_flag (m68k_set_flags c quotient .word) SR_CARRY false) SR_OVERFLOW false
      { c1 with cycle_count := c1.cycle_count + 158 }
    else if OP_ASL ≤ op ∧ op ≤ OP_ROXR then
      let count0 := (opcode >>> 9) &&& 0x7
      let count := if count0 = 0 then 8 else count0
      let r := shiftLoop count op cpu (cpu.d reg_dst)
      m68k_set_flags { r.1 with d := updN r.1.d reg_dst r.2 } r.2 size
    else if op = OP_VCROSS then
      cpu
    else m68k_execute_complete cpu memory mem_size op opcode
  { c with instruction_count := c.instruction_count + 1 }

/-- `m68k_execute_cycle` (m68k_execute2.c): the step controller.  A halted
processor does nothing; otherwise clear the bus-activity flag, stop at an
enabled breakpoint (halting without fetching), and otherwise fetch, decode
and dispatch to a handler family by the decoded tag's enum-order range. -/
def m68k_execute_cycle (cpu : CPU) (memory : Mem) (mem_size : Nat) : CPU × Mem :=
  if cpu.halted then (cpu, memory)
  else
    let cpu := { cpu with bus_active := false }
    let chk := m68k_check_breakpoint cpu cpu.pc
    if chk.2 then ({ chk.1 with halted := true }, memory)
    else
      let r := m68k_fetch_word chk.1 memory mem_size
      let op := m68k_decode_instruction r.2
      if OP_BRA ≤ op ∧ op ≤ OP_DBF then
        m68k_execute_branches r.1 memory mem_size op r.2
      else if OP_LEA ≤ op ∧ op ≤ OP_STOP then
        m68k_execute_special r.1 memory mem_size op r.2
      else
        (m68k_execute_instruction r.1 memory mem_size op r.2, memory)

/-- Iterate the step controller `n` times (the external driver loop). -/
def m68k_run : Nat → CPU → Mem → Nat → CPU × Mem
  | 0, cpu, memory, _ => (cpu, memory)
  | Nat.succ k, cpu, memory, mem_size =>
      let r := m68k_execute_cycle cpu memory mem_size
      m68k_run k r.1 r.2 mem_size

/-- A memory image built from a byte list (bytes beyond the list read 0). -/
def memOfBytes (l : List Nat) : Mem := fun addr => l.getD addr 0

/-- The 16-case condition truth table exactly as the spec states it:
T always true, F always false, HI = not C and not Z, LS = C or Z, CC = not C,
CS = C, NE = not Z, EQ = Z, VC = not V, VS = V, PL = not N, MI = N,
GE = N equivalent to V, LT = N xor V, GT = not Z and (N equivalent to V),
LE = Z or (N xor V). -/
def conditionSpec (cond : Nat) (n z v c : Bool) : Bool :=
  match cond with
  | 0 => true
  | 1 => false
  | 2 => !c && !z
  | 3 => c || z
  | 4 => !c
  | 5 => c
  | 6 => !z
  | 7 => z
  | 8 => !v
  | 9 => v
  | 10 => !n
  | 11 => n
  | 12 => n == v
  | 13 => n != v
  | 14 => !z && (n == v)
  | 15 => z || (n != v)
  | _ => false

/-- A processor state with the four condition flags set to the given values
through the source's own flag setter. -/
def flagsState (n z v c : Bool) : CPU :=
  m68k_set_flag (m68k_set_flag (m68k_set_flag (m68k_set_flag m68k_init
    SR_NEGATIVE n) SR_ZERO z) SR_OVERFLOW v) SR_CARRY c

/-- The end-to-end scenario's instruction stream: MOVEQ #1,D0; MOVEQ #2,D1;
MOVEQ #3,D2; ADD.W D0,D1; SUB.W D0,D2; CMP.W D0,D2; BEQ +2; ADD.W D0,D2. -/
def c1_program : Mem :=
  memOfBytes [0x70, 0x01, 0x72, 0x02, 0x74, 0x03, 0xD2, 0x40,
              0x94, 0x40, 0xB4, 0x40, 0x67, 0x02, 0xD4, 0x40]

/-- A single BRA.S +4 instruction followed by NOP padding. -/
def c2_program : Mem := memOfBytes [0x60, 0x04, 0x4E, 0x71, 0x4E, 0x71, 0x4E, 0x71]

/-- A reset-default state whose program counter sits beyond a 4-byte memory. -/
def c3_state : CPU := { m68k_init with pc := 9 }

/-- A reset-default state with every address register holding 100. -/
def c5_state : CPU := { m68k_init with a := fun _ => 100 }

/-- A state with D0 = 0x09, D1 = 0x01, the extend flag clear (reset default)
and the zero flag set. -/
def c7_state : CPU :=
  m68k_set_flag { m68k_init with d := updN (updN m68k_init.d 0 0x09) 1 0x01 } SR_ZERO true

/-- A reset-default state with one enabled breakpoint at address 0 whose hit
counter already stands at 5. -/
def c8_state : CPU := { m68k_init with breakpoints := [⟨0, true, 5⟩] }

lemma updN_self (f : Nat → Nat) (i v : Nat) : updN f i v i = v := by
  simp [updN]

lemma land_65535 (x : Nat) : x &&& 65535 = x % 65536 := by
  have h := Nat.and_pow_two_sub_one_eq_mod x 16
  norm_num at h
  exact h

lemma toInt16_eq_zero (x : Nat) : (toInt16 x = 0) ↔ x % 65536 = 0 := by
  unfold toInt16
  by_cases h : x % 65536 < 32768 <;> simp [h] <;> omega

lemma lor_split16 (x y : Nat) (h : y < 65536) :
    ((x <<< 16) ||| y) / 65536 = x ∧ ((x <<< 16) ||| y) % 65536 = y := by
  have hx : (x <<< 16) ||| y = 65536 * x + y := by
    rw [Nat.shiftLeft_eq]
    calc x * 2 ^ 16 ||| y = 2 ^ 16 * x ||| y := by rw [Nat.mul_comm]
      _ = 2 ^ 16 * x + y := (Nat.mul_add_lt_is_or (by norm_num [h] : y < 2 ^ 16) x).symm
      _ = 65536 * x + y := by norm_num
  constructor
  · rw [hx]; omega
  · rw [hx]; omega

lemma m68k_set_flag_sr (s : CPU) (f : Nat) (b : Bool) :
    (m68k_set_flag s f b).sr = if b then s.sr ||| f else s.sr &&& (65535 ^^^ f) := by
  cases b <;> rfl

lemma m68k_get_flag_testBit (s : CPU) (k : Nat) :
    m68k_get_flag s (2 ^ k) = s.sr.testBit k := by
  unfold m68k_get_flag
  rw [Nat.and_two_pow]
  cases h : s.sr.testBit k
  · simp [h]
  · simp [h, (Nat.two_pow_pos k).ne']

lemma testBit_set_sr (x k : Nat) (b : Bool) (j : Nat) (hj : j < 16) :
    (if b then x ||| 2 ^ k else x &&& (65535 ^^^ 2 ^ k)).testBit j =
      if j = k then b else x.testBit j := by
  have h65535 : ∀ i, i < 16 → Nat.testBit 65535 i = true := by decide
  have hpow : ∀ m, (2 ^ k).testBit m = decide (k = m) := fun m => Nat.testBit_two_pow
  by_cases h : j = k
  · subst h
    cases b with
    | true => simp [Nat.testBit_or, hpow]
    | false => simp [Nat.testBit_and, Nat.testBit_xor, hpow, h65535 j hj]
  · cases b with
    | true => simp [Nat.testBit_or, hpow, h, Ne.symm h]
    | false => simp [Nat.testBit_and, Nat.testBit_xor, hpow, h65535 j hj, h, Ne.symm h]

lemma m68k_get_flag_set_flag (s : CPU) (k k' : Nat) (b : Bool) (hk' : k' < 16) :
    m68k_get_flag (m68k_set_flag s (2 ^ k) b) (2 ^ k') =
      if k' = k then b else m68k_get_flag s (2 ^ k') := by
  rw [m68k_get_flag_testBit, m68k_get_flag_testBit]
  have h := m68k_set_flag_sr s (2 ^ k) b
  rw [h, testBit_set_sr _ _ _ _ hk']

lemma m68k_set_flag_d (s : CPU) (f : Nat) (b : Bool) : (m68k_set_flag s f b).d = s.d := by
  cases b <;> rfl

lemma m68k_set_flags_d (s : CPU) (r : Nat) (sz : OperandSize) :
    (m68k_set_flags s r sz).d = s.d := by
  unfold m68k_set_flags
  rw [m68k_set_flag_d, m68k_set_flag_d]

lemma m68k_set_flag_halted (s : CPU) (f : Nat) (b : Bool) :
    (m68k_set_flag s f b).halted = s.halted := by
  cases b <;> rfl

lemma m68k_set_flags_halted (s : CPU) (r : Nat) (sz : OperandSize) :
    (m68k_set_flags s r sz).halted = s.halted := by
  unfold m68k_set_flags
  rw [m68k_set_flag_halted, m68k_set_flag_halted]

lemma SR_CARRY_eq : SR_CARRY = 2 ^ 0 := by norm_num [SR_CARRY]
lemma SR_ZERO_eq : SR_ZERO = 2 ^ 2 := by norm_num [SR_ZERO]
lemma SR_EXTEND_eq : SR_EXTEND = 2 ^ 4 := by norm_num [SR_EXTEND]

lemma execute_instruction_move (s : CPU) (memory : Mem) (mem_size opcode : Nat) :
    m68k_execute_instruction s memory mem_size OP_MOVE opcode =
      { m68k_set_flags { s with d := updN s.d ((opcode >>> 9) &&& 0x7) (s.d (opcode &&& 0x7)) }
          (s.d (opcode &&& 0x7)) (get_size opcode) with
        instruction_count :=
          (m68k_set_flags { s with d := updN s.d ((opcode >>> 9) &&& 0x7) (s.d (opcode &&& 0x7)) }
            (s.d (opcode &&& 0x7)) (get_size opcode)).instruction_count + 1 } := rfl

lemma m68k_get_flag_set_flags_zero (s : CPU) (r : Nat) (sz : OperandSize) :
    m68k_get_flag (m68k_set_flags s r sz) SR_ZERO =
      (match sz with
       | .byte => decide (r % 256 = 0)
       | .word => decide (r % 65536 = 0)
       | .long => decide (r = 0)
       | _ => false) := by
  have hZ : SR_ZERO = 2 ^ 2 := by norm_num [SR_ZERO]
  have hN : SR_NEGATIVE = 2 ^ 3 := by norm_num [SR_NEGATIVE]
  unfold m68k_set_flags
  rw [hZ, hN, m68k_get_flag_set_flag _ _ _ _ (by norm_num),
    m68k_get_flag_set_flag _ _ _ _ (by norm_num)]
  cases sz <;> simp

lemma m68k_get_flag_set_flags_negative (s : CPU) (r : Nat) (sz : OperandSize) :
    m68k_get_flag (m68k_set_flags s r sz) SR_NEGATIVE =
      (match sz with
       | .byte => decide (r % 256 ≥ 128)
       | .word => decide (r % 65536 ≥ 32768)
       | .long => decide (r % 4294967296 ≥ 2147483648)
       | _ => false) := by
  have hN : SR_NEGATIVE = 2 ^ 3 := by norm_num [SR_NEGATIVE]
  unfold m68k_set_flags
  rw [hN, m68k_get_flag_set_flag _ _ _ _ (by norm_num)]
  cases sz <;> simp

lemma get_size_cases (opcode : Nat) :
    get_size opcode = .byte ∨ get_size opcode = .word ∨ get_size opcode = .long := by
  unfold get_size
  by_cases h0 : (opcode >>> 6) &&& 0x3 = 0 <;>
    by_cases h1 : (opcode >>> 6) &&& 0x3 = 1 <;>
    by_cases h2 : (opcode >>> 6) &&& 0x3 = 2 <;>
    simp [h0, h1, h2]

lemma read_memory_a (c : CPU) (memory : Mem) (ms addr : Nat) (sz : OperandSize) :
    (m68k_read_memory c memory ms addr sz).1.a = c.a := by
  unfold m68k_read_memory
  split <;> rfl

lemma read_memory_val (c c' : CPU) (memory : Mem) (ms addr : Nat) (sz : OperandSize) :
    (m68k_read_memory c memory ms addr sz).2 = (m68k_read_memory c' memory ms addr sz).2 := by
  unfold m68k_read_memory
  by_cases h : addr ≥ ms <;> simp [h]

lemma write_memory_a (c : CPU) (memory : Mem) (ms addr v : Nat) (sz : OperandSize) :
    (m68k_write_memory c memory ms addr v sz).1.a = c.a := by
  unfold m68k_write_memory
  split <;> rfl

lemma write_memory_mem (c c' : CPU) (memory : Mem) (ms addr v : Nat) (sz : OperandSize) :
    (m68k_write_memory c memory ms addr v sz).2 = (m68k_write_memory c' memory ms addr v sz).2 := by
  unfold m68k_write_memory
  by_cases h : addr ≥ ms <;> simp [h]

lemma get_ea_postinc (s : CPU) (memory : Mem) (ms reg : Nat) (sz : OperandSize) :
    m68k_get_ea_value s memory ms 3 reg sz =
      m68k_read_memory { s with a := updN s.a reg (u32 (s.a reg + sz.val)) }
        memory ms (s.a reg) sz := rfl

lemma get_ea_predec (s : CPU) (memory : Mem) (ms reg : Nat) (sz : OperandSize) :
    m68k_get_ea_value s memory ms 4 reg sz =
      m68k_read_memory { s with a := updN s.a reg (wrap32 ((s.a reg : Int) - (sz.val : Int))) }
        memory ms (updN s.a reg (wrap32 ((s.a reg : Int) - (sz.val : Int))) reg) sz := rfl

lemma set_ea_postinc (s : CPU) (memory : Mem) (ms reg value : Nat) (sz : OperandSize) :
    m68k_set_ea_value s memory ms 3 reg value sz =
      ({ (m68k_write_memory s memory ms (s.a reg) value sz).1 with
          a := updN (m68k_write_memory s memory ms (s.a reg) value sz).1.a reg
            (u32 ((m68k_write_memory s memory ms (s.a reg) value sz).1.a reg + sz.val)) },
       (m68k_write_memory s memory ms (s.a reg) value sz).2) := rfl

lemma set_ea_predec (s : CPU) (memory : Mem) (ms reg value : Nat) (sz : OperandSize) :
    m68k_set_ea_value s memory ms 4 reg value sz =
      m68k_write_memory { s with a := updN s.a reg (wrap32 ((s.a reg : Int) - (sz.val : Int))) }
        memory ms (updN s.a reg (wrap32 ((s.a reg : Int) - (sz.val : Int))) reg) value sz := rfl

lemma bpScan_first (pre : List Breakpoint) (b : Breakpoint) (post : List Breakpoint) (addr : Nat)
    (hpre : ∀ b' ∈ pre, ¬(b'.enabled = true ∧ b'.address = addr))
    (hen : b.enabled = true) (haddr : b.address = addr) :
    bpScan (pre ++ b :: post) addr =
      some (pre ++ { b with hit_count := b.hit_count + 1 } :: post) := by
  induction pre with
  | nil => simp [bpScan, hen, haddr]
  | cons hd tl ih =>
      have hhd := hpre hd (by simp)
      have hcond : (hd.enabled && (hd.address == addr)) = false := by
        cases he : hd.enabled
        · simp
        · cases hA : hd.address == addr
          · simp
          · exact absurd ⟨he, by simpa using hA⟩ hhd
      have ih' := ih (fun b' hb' => hpre b' (by simp [hb']))
      simp [bpScan, hcond, ih']

lemma execute_instruction_divu (s : CPU) (memory : Mem) (mem_size opcode : Nat) :
    m68k_execute_instruction s memory mem_size OP_DIVU opcode =
      (if s.d (opcode &&& 0x7) &&& 0xFFFF = 0 then
        { s with halted := true, cycle_count := s.cycle_count + 140,
                 instruction_count := s.instruction_count + 1 }
      else
        let quotient := u16 (s.d ((opcode >>> 9) &&& 0x7) / (s.d (opcode &&& 0x7) &&& 0xFFFF))
        let remainder := u16 (s.d ((opcode >>> 9) &&& 0x7) % (s.d (opcode &&& 0x7) &&& 0xFFFF))
        let c := m68k_set_flag (m68k_set_flag (m68k_set_flags
            { s with
                d := updN s.d ((opcode >>> 9) &&& 0x7) ((remainder <<< 16) ||| quotient) }
            quotient .word) SR_CARRY false) SR_OVERFLOW false
        { c with cycle_count := c.cycle_count + 140,
                 instruction_count := c.instruction_count + 1 }) := by
  unfold m68k_execute_instruction
  norm_num [OP_DIVU, OP_NOP, OP_MOVE, OP_MOVEA, OP_MOVEQ, OP_ADD, OP_ADDA, OP_ADDI,
    OP_ADDQ, OP_ADDX, OP_SUB, OP_SUBA, OP_SUBI, OP_SUBQ, OP_SUBX, OP_CMP, OP_CMPA,
    OP_CMPI, OP_AND, OP_ANDI, OP_OR, OP_ORI, OP_EOR, OP_EORI, OP_NOT, OP_NEG,
    OP_NEGX, OP_CLR, OP_TST, OP_MULU, OP_MULS, OP_DIVS, OP_ASL, OP_ROXR]
  split <;> rfl

lemma execute_instruction_divs (s : CPU) (memory : Mem) (mem_size opcode : Nat) :
    m68k_execute_instruction s memory mem_size OP_DIVS opcode =
      (if toInt16 (s.d (opcode &&& 0x7) &&& 0xFFFF) = 0 then
        { s with halted := true, cycle_count := s.cycle_count + 158,
                 instruction_count := s.instruction_count + 1 }
      else
        let quotient := wrap16 (Int.tdiv (toInt32 (s.d ((opcode >>> 9) &&& 0x7)))
          (toInt16 (s.d (opcode &&& 0x7) &&& 0xFFFF)))
        let remainder := wrap16 (Int.tmod (toInt32 (s.d ((opcode >>> 9) &&& 0x7)))
          (toInt16 (s.d (opcode &&& 0x7) &&& 0xFFFF)))
        let c := m68k_set_flag (m68k_set_flag (m68k_set_flags
            { s with
                d := updN s.d ((opcode >>> 9) &&& 0x7) ((remainder <<< 16) ||| quotient) }
            quotient .word) SR_CARRY false) SR_OVERFLOW false
        { c with cycle_count := c.cycle_count + 158,
                 instruction_count := c.instruction_count + 1 }) := by
  unfold m68k_execute_instruction
  norm_num [OP_DIVS, OP_NOP, OP_MOVE, OP_MOVEA, OP_MOVEQ, OP_ADD, OP_ADDA, OP_ADDI,
    OP_ADDQ, OP_ADDX, OP_SUB, OP_SUBA, OP_SUBI, OP_SUBQ, OP_SUBX, OP_CMP, OP_CMPA,
    OP_CMPI, OP_AND, OP_ANDI, OP_OR, OP_ORI, OP_EOR, OP_EORI, OP_NOT, OP_NEG,
    OP_NEGX, OP_CLR, OP_TST, OP_MULU, OP_MULS, OP_DIVU, OP_ASL, OP_ROXR]
  split <;> rfl

/-- C1: evaluation of the step controller on the end-to-end scenario from the
reset state (D0=D1=D2=0).  After eight `m68k_execute_cycle` steps over the
instruction stream MOVEQ #1,D0; MOVEQ #2,D1; MOVEQ #3,D2; ADD.W D0,D1;
SUB.W D0,D2; CMP.W D0,D2; BEQ (not taken); ADD.W D0,D2, the data registers
hold D0=1, D1=2, D2=3 — not the D1=3 the claim states.  The ADD/SUB/CMP
opcodes decode correctly, but the dispatcher's range test
`OP_LEA <= op && op <= OP_STOP` routes them to `m68k_execute_special`,
whose switch has no case for them, so they execute as no-ops even though
`m68k_execute_instruction` implements them. -/
theorem C1_end_to_end_trace :
    (m68k_run 8 m68k_init c1_program 16).1.d 0 = 1 ∧
    (m68k_run 8 m68k_init c1_program 16).1.d 1 = 2 ∧
    (m68k_run 8 m68k_init c1_program 16).1.d 2 = 3 ∧
    (m68k_run 8 m68k_init c1_program 16).1.d 1 ≠ 3 ∧
    m68k_decode_instruction 0xD240 = OP_ADD ∧
    (OP_LEA ≤ OP_ADD ∧ OP_ADD ≤ OP_STOP) := by
  decide

/-- C2: evaluation of one step on a non-halted, breakpoint-free reset state
whose memory holds a BRA instruction.  The instruction is fetched, decoded
and executed by the branch family (the branch counter becomes 1 and PC moves
to the branch target), yet the instruction counter stays 0 — the claim's
"+1 regardless of handler family" fails because only
`m68k_execute_instruction` increments it; `m68k_execute_branches` and
`m68k_execute_special` do not. -/
theorem C2_branch_family_skips_count :
    m68k_init.halted = false ∧
    m68k_init.breakpoints = [] ∧
    m68k_decode_instruction 0x6004 = OP_BRA ∧
    (m68k_execute_cycle m68k_init c2_program 8).1.branch_count = 1 ∧
    (m68k_execute_cycle m68k_init c2_program 8).1.pc = 6 ∧
    (m68k_execute_cycle m68k_init c2_program 8).1.instruction_count = 0 ∧
    m68k_init.instruction_count + 1 ≠ 0 := by
  decide

/-- C3: for every address at or beyond the memory size, a sized ordinary
read returns the default value 0 and changes nothing (in particular it does
not halt), a sized ordinary write changes no memory byte and nothing else,
while an instruction fetch whose PC is out of bounds sets only the halted
flag, returning 0 with PC unadvanced — three distinct outcomes. -/
theorem C3_bounds_outcomes (cpu : CPU) (memory : Mem) (mem_size addr value : Nat)
    (size : OperandSize) (hr : mem_size ≤ addr) (hf : mem_size ≤ cpu.pc) :
    m68k_read_memory cpu memory mem_size addr size = (cpu, 0) ∧
    m68k_write_memory cpu memory mem_size addr value size = (cpu, memory) ∧
    m68k_fetch_word cpu memory mem_size = ({ cpu with halted := true }, 0) := by
  refine ⟨?_, ?_, ?_⟩
  · unfold m68k_read_memory
    rw [if_pos hr]
  · unfold m68k_write_memory
    rw [if_pos hr]
  · unfold m68k_fetch_word
    rw [if_pos (show cpu.pc ≥ mem_size - 1 by omega)]

/-- C3 witness: the three outcomes at memory size 4, address 10, PC 9. -/
theorem C3_bounds_outcomes_witness :
    m68k_read_memory c3_state (memOfBytes []) 4 10 .word = (c3_state, 0) ∧
    m68k_write_memory c3_state (memOfBytes []) 4 10 0xAB .word = (c3_state, memOfBytes []) ∧
    m68k_fetch_word c3_state (memOfBytes []) 4 = ({ c3_state with halted := true }, 0) :=
  C3_bounds_outcomes c3_state (memOfBytes []) 4 10 0xAB .word (by norm_num) (by norm_num [c3_state])

/-- C4: for every state, executing DIVU or DIVS with a zero divisor operand
sets the halted flag and leaves the destination data register unmodified,
while for a nonzero divisor the processor does not newly halt and the
destination receives the remainder in its high 16 bits and the (16-bit
truncated) quotient in its low 16 bits — unsigned for DIVU, truncated
two's-complement for DIVS. -/
theorem C4_divide (s : CPU) (memory : Mem) (mem_size opcode : Nat) :
    (if s.d (opcode &&& 0x7) &&& 0xFFFF = 0 then
      (m68k_execute_instruction s memory mem_size OP_DIVU opcode).halted = true ∧
      (m68k_execute_instruction s memory mem_size OP_DIVU opcode).d ((opcode >>> 9) &&& 0x7) =
        s.d ((opcode >>> 9) &&& 0x7)
    else
      (m68k_execute_instruction s memory mem_size OP_DIVU opcode).halted = s.halted ∧
      (m68k_execute_instruction s memory mem_size OP_DIVU opcode).d ((opcode >>> 9) &&& 0x7) / 65536 =
        s.d ((opcode >>> 9) &&& 0x7) % (s.d (opcode &&& 0x7) &&& 0xFFFF) ∧
      (m68k_execute_instruction s memory mem_size OP_DIVU opcode).d ((opcode >>> 9) &&& 0x7) % 65536 =
        s.d ((opcode >>> 9) &&& 0x7) / (s.d (opcode &&& 0x7) &&& 0xFFFF) % 65536) ∧
    (if s.d (opcode &&& 0x7) &&& 0xFFFF = 0 then
      (m68k_execute_instruction s memory mem_size OP_DIVS opcode).halted = true ∧
      (m68k_execute_instruction s memory mem_size OP_DIVS opcode).d ((opcode >>> 9) &&& 0x7) =
        s.d ((opcode >>> 9) &&& 0x7)
    else
      (m68k_execute_instruction s memory mem_size OP_DIVS opcode).halted = s.halted ∧
      (m68k_execute_instruction s memory mem_size OP_DIVS opcode).d ((opcode >>> 9) &&& 0x7) / 65536 =
        wrap16 (Int.tmod (toInt32 (s.d ((opcode >>> 9) &&& 0x7)))
          (toInt16 (s.d (opcode &&& 0x7) &&& 0xFFFF))) ∧
      (m68k_execute_instruction s memory mem_size OP_DIVS opcode).d ((opcode >>> 9) &&& 0x7) % 65536 =
        wrap16 (Int.tdiv (toInt32 (s.d ((opcode >>> 9) &&& 0x7)))
          (toInt16 (s.d (opcode &&& 0x7) &&& 0xFFFF)))) := by
  have hu16lt : ∀ x : Nat, u16 x < 65536 := fun x => Nat.mod_lt _ (by norm_num)
  have hw16lt : ∀ x : Int, wrap16 x < 65536 := by
    intro x
    unfold wrap16
    omega
  constructor
  · rw [execute_instruction_divu]
    by_cases h : s.d (opcode &&& 0x7) &&& 0xFFFF = 0
    · rw [if_pos h, if_pos h]
      exact ⟨rfl, rfl⟩
    · rw [if_neg h, if_neg h]
      refine ⟨?_, ?_, ?_⟩
      · show (m68k_set_flag _ _ _).halted = s.halted
        rw [m68k_set_flag_halted, m68k_set_flag_halted, m68k_set_flags_halted]
      · show (m68k_set_flag _ _ _).d _ / 65536 = _
        rw [m68k_set_flag_d, m68k_set_flag_d]
        show updN _ _ _ _ / 65536 = _
        rw [updN_self, (lor_split16 _ _ (hu16lt _)).1]
        have hsrc : s.d (opcode &&& 0x7) &&& 0xFFFF ≤ 65535 := Nat.and_le_right
        have hmod : s.d ((opcode >>> 9) &&& 0x7) % (s.d (opcode &&& 0x7) &&& 0xFFFF) <
            s.d (opcode &&& 0x7) &&& 0xFFFF :=
          Nat.mod_lt _ (Nat.pos_of_ne_zero h)
        unfold u16
        omega
      · show (m68k_set_flag _ _ _).d _ % 65536 = _
        rw [m68k_set_flag_d, m68k_set_flag_d]
        show updN _ _ _ _ % 65536 = _
        rw [updN_self, (lor_split16 _ _ (hu16lt _)).2]
        rfl
  · rw [execute_instruction_divs]
    by_cases h : s.d (opcode &&& 0x7) &&& 0xFFFF = 0
    · have h' : toInt16 (s.d (opcode &&& 0x7) &&& 0xFFFF) = 0 := by
        rw [toInt16_eq_zero, h]
      rw [if_pos h', if_pos h]
      exact ⟨rfl, rfl⟩
    · have h' : ¬ toInt16 (s.d (opcode &&& 0x7) &&& 0xFFFF) = 0 := by
        rw [toInt16_eq_zero]
        have hle : s.d (opcode &&& 0x7) &&& 65535 ≤ 65535 := Nat.and_le_right
        intro hc
        apply h
        omega
      rw [if_neg h', if_neg h]
      refine ⟨?_, ?_, ?_⟩
      · show (m68k_set_flag _ _ _).halted = s.halted
        rw [m68k_set_flag_halted, m68k_set_flag_halted, m68k_set_flags_halted]
      · show (m68k_set_flag _ _ _).d _ / 65536 = _
        rw [m68k_set_flag_d, m68k_set_flag_d]
        show updN _ _ _ _ / 65536 = _
        rw [updN_self, (lor_split16 _ _ (hw16lt _)).1]
      · show (m68k_set_flag _ _ _).d _ % 65536 = _
        rw [m68k_set_flag_d, m68k_set_flag_d]
        show updN _ _ _ _ % 65536 = _
        rw [updN_self, (lor_split16 _ _ (hw16lt _)).2]

/-- C5 counterexample: a byte-sized post-increment read through the
stack-pointer register A7 steps the register by 1, not by the word-sized
step 2 the claim requires (A7 was 100; it becomes 101, and 101 is not
100 + 2). -/
theorem C5_a7_byte_step_counterexample :
    c5_state.a 7 = 100 ∧
    (m68k_get_ea_value c5_state (memOfBytes []) 0 3 7 .byte).1.a 7 = 101 ∧
    (101 : Nat) ≠ 100 + 2 := by
  decide

/-- C5 as amended: for every register (A7 included) and every operand size,
a post-increment resolution (read or write) accesses the original address
and then increases the address register by exactly the operand size, and a
pre-decrement resolution decreases the register by exactly the operand size
and then accesses the new address; there is no special word-sized step for
byte operands on A7. -/
theorem C5_autoinc_autodec (s : CPU) (memory : Mem) (mem_size reg value : Nat)
    (size : OperandSize) :
    ((m68k_get_ea_value s memory mem_size 3 reg size).1.a reg = u32 (s.a reg + size.val) ∧
     (m68k_get_ea_value s memory mem_size 3 reg size).2 =
       (m68k_read_memory s memory mem_size (s.a reg) size).2) ∧
    ((m68k_get_ea_value s memory mem_size 4 reg size).1.a reg =
       wrap32 ((s.a reg : Int) - (size.val : Int)) ∧
     (m68k_get_ea_value s memory mem_size 4 reg size).2 =
       (m68k_read_memory s memory mem_size (wrap32 ((s.a reg : Int) - (size.val : Int))) size).2) ∧
    ((m68k_set_ea_value s memory mem_size 3 reg value size).1.a reg = u32 (s.a reg + size.val) ∧
     (m68k_set_ea_value s memory mem_size 3 reg value size).2 =
       (m68k_write_memory s memory mem_size (s.a reg) value size).2) ∧
    ((m68k_set_ea_value s memory mem_size 4 reg value size).1.a reg =
       wrap32 ((s.a reg : Int) - (size.val : Int)) ∧
     (m68k_set_ea_value s memory mem_size 4 reg value size).2 =
       (m68k_write_memory s memory mem_size (wrap32 ((s.a reg : Int) - (size.val : Int))) value size).2) := by
  refine ⟨⟨?_, ?_⟩, ⟨?_, ?_⟩, ⟨?_, ?_⟩, ⟨?_, ?_⟩⟩
  · rw [get_ea_postinc, read_memory_a]
    exact updN_self _ _ _
  · rw [get_ea_postinc]
    exact read_memory_val _ s _ _ _ _
  · rw [get_ea_predec, read_memory_a]
    exact updN_self _ _ _
  · rw [get_ea_predec, updN_self]
    exact read_memory_val _ s _ _ _ _
  · rw [set_ea_postinc]
    show updN _ reg _ reg = _
    rw [updN_self, write_memory_a]
  · rw [set_ea_postinc]
  · rw [set_ea_predec, write_memory_a]
    exact updN_self _ _ _
  · rw [set_ea_predec, updN_self]
    exact write_memory_mem _ s _ _ _ _ _

/-- C6: for each of the 16 condition codes and each of the 16 combinations
of the N, Z, V, C flags, `m68k_test_condition` returns exactly the value of
the standard 68000 condition truth table (256 cases). -/
theorem C6_condition_table :
    ∀ (cond : Fin 16) (n z v c : Bool),
      m68k_test_condition (flagsState n z v c) cond.val = conditionSpec cond.val n z v c := by
  decide

/-- C7 counterexample: ABCD on source byte 0x09 and destination byte 0x01
with extend clear and the zero flag previously true stores 0x10 and CLEARS
the zero flag — it is not left unchanged as the claim states (the BCD ops
clear Z on every non-zero result byte and 0x10 is non-zero). -/
theorem C7_abcd_zero_counterexample :
    m68k_get_flag c7_state SR_ZERO = true ∧
    m68k_get_flag c7_state SR_EXTEND = false ∧
    c7_state.d 0 &&& 0xFF = 0x09 ∧
    c7_state.d 1 &&& 0xFF = 0x01 ∧
    (m68k_execute_bcd c7_state OP_ABCD 0x200).d 1 = 0x10 ∧
    m68k_get_flag (m68k_execute_bcd c7_state OP_ABCD 0x200) SR_ZERO = false := by
  decide

/-- C7 as amended: executing the ABCD handler with source low byte 0x09 and
destination low byte 0x01 (equivalently 0x01 and 0x09) while the extend flag
is clear stores result byte 0x10 into the destination register's low byte,
sets carry and extend to false, and clears the zero flag (the result byte is
non-zero; Z would be left unchanged only for a zero result byte). -/
theorem C7_abcd_nine_one (s : CPU) (opcode : Nat)
    (hx : m68k_get_flag s SR_EXTEND = false)
    (h91 : (s.d (opcode &&& 0x7) &&& 0xFF = 0x09 ∧ s.d ((opcode >>> 9) &&& 0x7) &&& 0xFF = 0x01) ∨
           (s.d (opcode &&& 0x7) &&& 0xFF = 0x01 ∧ s.d ((opcode >>> 9) &&& 0x7) &&& 0xFF = 0x09)) :
    (m68k_execute_bcd s OP_ABCD opcode).d ((opcode >>> 9) &&& 0x7) =
        (s.d ((opcode >>> 9) &&& 0x7) &&& 0xFFFFFF00) ||| 0x10 ∧
    m68k_get_flag (m68k_execute_bcd s OP_ABCD opcode) SR_CARRY = false ∧
    m68k_get_flag (m68k_execute_bcd s OP_ABCD opcode) SR_EXTEND = false ∧
    m68k_get_flag (m68k_execute_bcd s OP_ABCD opcode) SR_ZERO = false := by
  unfold m68k_execute_bcd
  rw [if_pos rfl]
  have e1 : (1:Nat) &&& 15 = 1 := by decide
  have e2 : (9:Nat) &&& 15 = 9 := by decide
  have e3 : (1:Nat) >>> 4 = 0 := by decide
  have e4 : (9:Nat) >>> 4 = 0 := by decide
  have e5 : (16:Nat) &&& 15 = 0 := by decide
  have e6 : (1:Nat) <<< 4 = 16 := by decide
  have e7 : (16:Nat) ||| 0 = 16 := by decide
  have e8 : (0:Nat) &&& 15 = 0 := by decide
  rcases h91 with ⟨h1, h2⟩ | ⟨h1, h2⟩ <;>
    simp only [hx, h1, h2] <;>
    simp [e1, e2, e3, e4, e5, e6, e7, e8] <;>
    refine ⟨?_, ?_, ?_, ?_⟩ <;>
    first
      | (rw [m68k_set_flag_d, m68k_set_flag_d, m68k_set_flag_d]; exact updN_self _ _ _)
      | (rw [SR_CARRY_eq, SR_ZERO_eq, SR_EXTEND_eq,
             m68k_get_flag_set_flag _ _ _ _ (by norm_num),
             m68k_get_flag_set_flag _ _ _ _ (by norm_num),
             m68k_get_flag_set_flag _ _ _ _ (by norm_num)];
         norm_num)

/-- C7 witness: the amended ABCD property at the concrete state with D0=0x09,
D1=0x01, extend clear, zero previously true. -/
theorem C7_abcd_nine_one_witness :
    (m68k_execute_bcd c7_state OP_ABCD 0x200).d 1 =
        (c7_state.d 1 &&& 0xFFFFFF00) ||| 0x10 ∧
    m68k_get_flag (m68k_execute_bcd c7_state OP_ABCD 0x200) SR_CARRY = false ∧
    m68k_get_flag (m68k_execute_bcd c7_state OP_ABCD 0x200) SR_EXTEND = false ∧
    m68k_get_flag (m68k_execute_bcd c7_state OP_ABCD 0x200) SR_ZERO = false :=
  C7_abcd_nine_one c7_state 0x200 (by decide) (Or.inl ⟨by decide, by decide⟩)

/-- C8: for every non-halted state whose PC matches an enabled breakpoint
(the first enabled one at that address), one step halts the processor,
increments exactly that breakpoint's hit counter by one, records the hit,
and returns without fetching, decoding or executing: PC, registers, status,
memory, and the cycle and instruction counters are all unchanged (the
record-update equality fixes every other field to its old value). -/
theorem C8_breakpoint_stop (s : CPU) (memory : Mem) (mem_size : Nat)
    (pre post : List Breakpoint) (b : Breakpoint)
    (hbps : s.breakpoints = pre ++ b :: post)
    (hpre : ∀ b' ∈ pre, ¬(b'.enabled = true ∧ b'.address = s.pc))
    (hen : b.enabled = true) (haddr : b.address = s.pc)
    (hhalt : s.halted = false) :
    m68k_execute_cycle s memory mem_size =
      ({ s with bus_active := false,
                breakpoints := pre ++ { b with hit_count := b.hit_count + 1 } :: post,
                breakpoint_hit := true, breakpoint_addr := s.pc,
                halted := true }, memory) := by
  have hscan := bpScan_first pre b post s.pc hpre hen haddr
  unfold m68k_execute_cycle m68k_check_breakpoint
  rw [hhalt]
  simp only [Bool.false_eq_true, if_false]
  rw [show ({ s with bus_active := false } : CPU).breakpoints = s.breakpoints from rfl, hbps, hscan]
  rfl

/-- C8 witness: one step on a reset state with an enabled breakpoint at
address 0 (hit counter 5) halts and bumps that counter to 6. -/
theorem C8_breakpoint_stop_witness :
    m68k_execute_cycle c8_state (memOfBytes [0x4E, 0x71]) 2 =
      ({ c8_state with bus_active := false, breakpoints := [⟨0, true, 6⟩],
                       breakpoint_hit := true, breakpoint_addr := 0,
                       halted := true }, memOfBytes [0x4E, 0x71]) :=
  C8_breakpoint_stop c8_state (memOfBytes [0x4E, 0x71]) 2 [] [] ⟨0, true, 5⟩
    rfl (by simp) rfl rfl rfl

/-- C9: for every state, reset restores every component of the processor
state to the fixed startup defaults (zeroed registers and PC, supervisor
status word, stack pointers, cleared halted flag, zeroed bus/cache/
performance bookkeeping) except the cycle counter, the instruction counter,
the extension-enabled flag and the breakpoint set — including each
breakpoint's address, enabled flag and hit count — which keep their
pre-reset values. -/
theorem C9_reset_frame (s : CPU) :
    (m68k_reset s).d = (fun _ => 0) ∧
    (m68k_reset s).a = (fun _ => 0) ∧
    (m68k_reset s).pc = 0 ∧
    (m68k_reset s).sr = SR_SUPERVISOR ∧
    (m68k_reset s).usp = 0 ∧
    (m68k_reset s).ssp = 0x10000 ∧
    (m68k_reset s).apollo_v = (fun _ => 0) ∧
    (m68k_reset s).apollo_vr = (fun _ => 0) ∧
    (m68k_reset s).apollo_fp = (fun _ => 0) ∧
    (m68k_reset s).apollo_fpcr = 0 ∧
    (m68k_reset s).apollo_fpsr = 0 ∧
    (m68k_reset s).apollo_fpiar = 0 ∧
    (m68k_reset s).halted = false ∧
    (m68k_reset s).trace_mode = false ∧
    (m68k_reset s).bus_data = (fun _ => 0) ∧
    (m68k_reset s).bus_address = 0 ∧
    (m68k_reset s).bus_active = false ∧
    (m68k_reset s).bus_transfers = 0 ∧
    (m68k_reset s).icache = (fun _ => 0) ∧
    (m68k_reset s).dcache = (fun _ => 0) ∧
    (m68k_reset s).icache_valid = (fun _ => false) ∧
    (m68k_reset s).dcache_valid = (fun _ => false) ∧
    (m68k_reset s).cache_hits = 0 ∧
    (m68k_reset s).cache_misses = 0 ∧
    (m68k_reset s).breakpoint_hit = false ∧
    (m68k_reset s).breakpoint_addr = 0 ∧
    (m68k_reset s).vbr = 0 ∧
    (m68k_reset s).branch_count = 0 ∧
    (m68k_reset s).branch_taken = 0 ∧
    (m68k_reset s).load_count = 0 ∧
    (m68k_reset s).store_count = 0 ∧
    (m68k_reset s).cycle_count = s.cycle_count ∧
    (m68k_reset s).instruction_count = s.instruction_count ∧
    (m68k_reset s).apollo_mode = s.apollo_mode ∧
    (m68k_reset s).breakpoints = s.breakpoints :=
  ⟨rfl, rfl, rfl, rfl, rfl, rfl, rfl, rfl, rfl, rfl, rfl, rfl, rfl, rfl, rfl,
   rfl, rfl, rfl, rfl, rfl, rfl, rfl, rfl, rfl, rfl, rfl, rfl, rfl, rfl, rfl,
   rfl, rfl, rfl, rfl, rfl⟩

/-- C10: for every state and opcode word, the register-to-register MOVE
handler writes the source data register's full 32-bit value into the
destination data register — so byte- and word-sized MOVEs do not preserve
the destination's untouched high bits — while the Z and N flags are computed
from only the size-truncated result. -/
theorem C10_move_full_width (s : CPU) (memory : Mem) (mem_size opcode : Nat) :
    (m68k_execute_instruction s memory mem_size OP_MOVE opcode).d ((opcode >>> 9) &&& 0x7) =
        s.d (opcode &&& 0x7) ∧
    m68k_get_flag (m68k_execute_instruction s memory mem_size OP_MOVE opcode) SR_ZERO =
      (match get_size opcode with
       | .byte => decide (s.d (opcode &&& 0x7) % 256 = 0)
       | .word => decide (s.d (opcode &&& 0x7) % 65536 = 0)
       | _ => decide (s.d (opcode &&& 0x7) = 0)) ∧
    m68k_get_flag (m68k_execute_instruction s memory mem_size OP_MOVE opcode) SR_NEGATIVE =
      (match get_size opcode with
       | .byte => decide (s.d (opcode &&& 0x7) % 256 ≥ 128)
       | .word => decide (s.d (opcode &&& 0x7) % 65536 ≥ 32768)
       | _ => decide (s.d (opcode &&& 0x7) % 4294967296 ≥ 2147483648)) := by
  rw [execute_instruction_move]
  refine ⟨?_, ?_, ?_⟩
  · show (m68k_set_flags _ _ _).d _ = _
    rw [m68k_set_flags_d]
    exact updN_self _ _ _
  · show m68k_get_flag (m68k_set_flags _ _ _) SR_ZERO = _
    rw [m68k_get_flag_set_flags_zero]
    rcases get_size_cases opcode with h | h | h <;> rw [h]
  · show m68k_get_flag (m68k_set_flags _ _ _) SR_NEGATIVE = _
    rw [m68k_get_flag_set_flags_negative]
    rcases get_size_cases opcode with h | h | h <;> rw [h]

end M68K
